import Mathlib

/-!
# AJM plugin loader: a verification development

A shallow embedding of `src/core/libraries/ajm/ajm_plugin_loader.cpp` (the plugin
registry `AjmPluginLoader`) together with the part of
`src/core/libraries/ajm/plugin_m4aac.cpp` the registry depends on (the built-in
factory and `getPluginInfo`).

Modelling decisions:

* `std::string` is `String`; `uint32_t` is a `Nat` below `2^32`.
* A pointer to an `IAudioPlugin` is an `Option IAudioPlugin` (`none` is `nullptr`);
  an instance carries its address (its identity) and the value its virtual
  `getPluginInfo()` returns.
* A `void*` library handle is a `Nat`, `0` being the null handle.
* `std::unordered_map<std::string, PluginEntry>` is an association list; the list
  order stands for the (unspecified) iteration order.
* `std::mutex pluginMutex` is a held/free flag.  `std::mutex` is not recursive:
  locking it while the calling thread already holds it has no defined result, so
  such a call produces `Outcome.relock` instead of returning.
* Deleting an object that has already been destroyed has no defined result either:
  a call that does so produces `Outcome.doubleDelete` instead of returning.
* Calls that leave the registry (instance shutdown, instance deletion, the module's
  factory and destructor, closing a module) are recorded, in program order, in the
  `events` of the call.  Console logging is not modelled.

The M4AAC plugin (`plugin_m4aac.cpp`) and the decoder it drives
(`src/core/libraries/audio/OrbisAudioDecoder.cpp`) are embedded as well:

* FFmpeg is outside the repository: what it answers to each call is a parameter
  (`InitAnswers`, `DecodeAnswers`), and the calls made while decoding are recorded in
  `calls`.
* A pointer argument or member is recorded as whether it is non-null.
* `int` is the 32-bit two's-complement range: `toInt32` converts into it and `toUInt32`
  converts to `uint32_t`; arithmetic on `int` wraps.
-/

namespace ShadPS4.Audio

/-! ## plugin_interface.h -/

/-- Plugin information structure (`struct PluginInfo`). -/
structure PluginInfo where
  name : String
  version : String
  codecType : String
  apiVersion : Nat
  deriving DecidableEq, Repr

/-- The constant `PLUGIN_API_VERSION = 0x00010000`. -/
def PLUGIN_API_VERSION : Nat := 0x00010000

/-- An object implementing `IAudioPlugin`, seen from the registry: where it lives
and what its `getPluginInfo()` override returns. -/
structure IAudioPlugin where
  addr : Nat
  pluginInfo : PluginInfo
  deriving DecidableEq, Repr

/-- The virtual call `plugin->getPluginInfo()`. -/
def IAudioPlugin.getPluginInfo (p : IAudioPlugin) : PluginInfo := p.pluginInfo

/-- Factory function type `IAudioPlugin* (*)()`; the result `none` is a null pointer. -/
abbrev CreatePluginInstanceFunc := Unit → Option IAudioPlugin

/-! ## plugin_m4aac.cpp: what the registry uses of it -/

/-- The method `M4aacAudioPlugin::getPluginInfo`. -/
def M4aacAudioPlugin.getPluginInfo : PluginInfo :=
  { name := "M4AAC Decoder", version := "1.0.0", codecType := "M4AAC",
    apiVersion := PLUGIN_API_VERSION }

/-- The exported `createPluginInstance` of plugin_m4aac.cpp:
`return new ShadPS4::Audio::M4aacAudioPlugin();`.  The argument is the address that
`new` hands out; `new` never yields a null pointer. -/
def createPluginInstance (a : Nat) : Option IAudioPlugin :=
  some { addr := a, pluginInfo := M4aacAudioPlugin.getPluginInfo }

/-- The function `createM4aacPlugin` at the end of ajm_plugin_loader.cpp, which forwards to
`createPluginInstance`. -/
def createM4aacPlugin (a : Nat) : Option IAudioPlugin := createPluginInstance a

/-! ## ajm_plugin_loader.cpp: data -/

/-- Plugin registry entry (`struct PluginEntry`). -/
structure PluginEntry where
  plugin : Option IAudioPlugin
  info : PluginInfo
  isBuiltIn : Bool
  libraryHandle : Nat
  deriving DecidableEq, Repr

/-- The member `std::unordered_map<std::string, PluginEntry> plugins`. -/
abbrev PluginMap := List (String × PluginEntry)

/-- The lookup `plugins.find(key)`; `none` stands for `plugins.end()`. -/
def PluginMap.find : PluginMap → String → Option PluginEntry
  | [], _ => none
  | (k, e) :: m, key => if k = key then some e else PluginMap.find m key

/-- The assignment `plugins[key] = std::move(entry)`: overwrite the element stored under `key`,
or add one when there is none. -/
def PluginMap.assign : PluginMap → String → PluginEntry → PluginMap
  | [], key, entry => [(key, entry)]
  | (k, e) :: m, key, entry =>
    if k = key then (key, entry) :: m else (k, e) :: PluginMap.assign m key entry

/-- The removal `plugins.erase(it)` for the iterator `it = plugins.find(key)`. -/
def PluginMap.erase : PluginMap → String → PluginMap
  | [], _ => []
  | (k, e) :: m, key => if k = key then m else (k, e) :: PluginMap.erase m key

/-- The data members of `class AjmPluginLoader`. -/
structure AjmPluginLoader where
  plugins : PluginMap
  pluginMutex : Bool
  initialized : Bool
  deriving DecidableEq, Repr

/-- The loader as constructed: no entries, mutex free, `initialized = false`. -/
def AjmPluginLoader.fresh : AjmPluginLoader :=
  { plugins := [], pluginMutex := false, initialized := false }

/-- Calls that leave the registry. -/
inductive Event where
  /-- The built-in factory ran: `createM4aacPlugin()` allocated an instance at the address. -/
  | builtinFactory (a : Nat)
  /-- The factory resolved from the module behind the handle was called. -/
  | createFunc (handle : Nat)
  /-- The virtual call `plugin->shutdown()` on the instance at the address. -/
  | pluginShutdown (a : Nat)
  /-- The instance at the address was deleted by its `std::unique_ptr`. -/
  | deleteInstance (a : Nat)
  /-- The module's `destroyPluginInstance` was called on the instance at the address. -/
  | destroyFunc (a : Nat)
  /-- The module behind the handle was closed (`dlclose` / `FreeLibrary`). -/
  | closeLibrary (handle : Nat)
  deriving DecidableEq, Repr

/-- What a call that returns leaves behind. -/
structure Ret (β : Type) where
  value : β
  loader : AjmPluginLoader
  events : List Event
  deriving DecidableEq, Repr

/-- How a call on the loader ends: it returns; or it tries to lock `pluginMutex` while the
mutex is held and does not return; or it deletes an instance that was destroyed before, and
does not return either (`events` are the external calls made up to and including that
second destruction). -/
inductive Outcome (β : Type) where
  | returns (r : Ret β)
  | relock
  | doubleDelete (events : List Event)
  deriving DecidableEq, Repr

/-- The value a call returned, if it returned. -/
def Outcome.value? {β : Type} : Outcome β → Option β
  | .returns r => some r.value
  | .relock => none
  | .doubleDelete _ => none

/-- The loader after the call, if it returned. -/
def Outcome.loader? {β : Type} : Outcome β → Option AjmPluginLoader
  | .returns r => some r.loader
  | .relock => none
  | .doubleDelete _ => none

/-- The external calls made by the call, if it returned. -/
def Outcome.events? {β : Type} : Outcome β → Option (List Event)
  | .returns r => some r.events
  | .relock => none
  | .doubleDelete _ => none

/-- The construction `std::lock_guard<std::mutex> lock(pluginMutex)`: take the mutex when it is
free; `none` when it is held. -/
def AjmPluginLoader.lock (s : AjmPluginLoader) : Option AjmPluginLoader :=
  if s.pluginMutex then none else some { s with pluginMutex := true }

/-- Destruction of the `lock_guard` at scope exit. -/
def AjmPluginLoader.unlock (s : AjmPluginLoader) : AjmPluginLoader :=
  { s with pluginMutex := false }

/-- The operating system's dynamic linker, as far as `loadDynamicPlugin` uses it. -/
structure DynamicLinker where
  /-- The call `dlopen(path, RTLD_LAZY)` / `LoadLibraryA(path)`; `0` is the null handle. -/
  dlopen : String → Nat
  /-- The lookup `dlsym(handle, "createPluginInstance")`; `none` is a null pointer. -/
  createPluginInstance : Nat → Option CreatePluginInstanceFunc
  /-- Whether `dlsym(handle, "destroyPluginInstance")` is non-null. -/
  destroyPluginInstance : Nat → Bool

/-! ## ajm_plugin_loader.cpp: operations -/

/-- The method `AjmPluginLoader::loadLibrary`. -/
def loadLibrary (os : DynamicLinker) (path : String) : Nat := os.dlopen path

/-- The method `AjmPluginLoader::unloadLibrary`: `if (!handle) return;` then close the module. -/
def unloadLibrary (handle : Nat) : List Event :=
  if handle = 0 then [] else [Event.closeLibrary handle]

/-- The method `AjmPluginLoader::registerBuiltInPlugin`. -/
def registerBuiltInPlugin (s : AjmPluginLoader) (plugin : Option IAudioPlugin) : Outcome Bool :=
  match plugin with
  | none => .returns ⟨false, s, []⟩
  | some p =>
    let info := p.getPluginInfo
    let codecType := info.codecType
    match s.lock with
    | none => .relock
    | some s1 =>
      if (PluginMap.find s1.plugins codecType).isSome then
        -- the by-value `unique_ptr` argument still owns the instance and deletes it
        .returns ⟨false, s1.unlock, [Event.deleteInstance p.addr]⟩
      else
        let entry : PluginEntry :=
          { plugin := some p, info := info, isBuiltIn := true, libraryHandle := 0 }
        .returns ⟨true,
          AjmPluginLoader.unlock { s1 with plugins := PluginMap.assign s1.plugins codecType entry },
          []⟩

/-- The method `AjmPluginLoader::registerBuiltInPlugins`; `a` is the address the factory's
`new` hands out. -/
def registerBuiltInPlugins (a : Nat) (s : AjmPluginLoader) : Outcome Unit :=
  match createM4aacPlugin a with
  | some p =>
    match registerBuiltInPlugin s (some p) with
    | .returns r => .returns ⟨(), r.loader, Event.builtinFactory a :: r.events⟩
    | .relock => .relock
    | .doubleDelete events => .doubleDelete (Event.builtinFactory a :: events)
  | none => .returns ⟨(), s, [Event.builtinFactory a]⟩

/-- The method `AjmPluginLoader::initializePlugins`. -/
def initializePlugins (a : Nat) (s : AjmPluginLoader) : Outcome Bool :=
  match s.lock with
  | none => .relock
  | some s1 =>
    if s1.initialized then .returns ⟨true, s1.unlock, []⟩
    else
      match registerBuiltInPlugins a s1 with
      | .relock => .relock
      | .doubleDelete events => .doubleDelete events
      | .returns r =>
        .returns ⟨true, AjmPluginLoader.unlock { r.loader with initialized := true }, r.events⟩

/-- The body of the loop in `shutdownPlugins` for one entry: shut the instance down and
release it, then close the module of a dynamic entry. -/
def shutdownEntry (entry : PluginEntry) : List Event :=
  (match entry.plugin with
    | some p => [Event.pluginShutdown p.addr, Event.deleteInstance p.addr]
    | none => []) ++
  (if !entry.isBuiltIn && entry.libraryHandle != 0 then unloadLibrary entry.libraryHandle else [])

/-- The method `AjmPluginLoader::shutdownPlugins`. -/
def shutdownPlugins (s : AjmPluginLoader) : Outcome Unit :=
  match s.lock with
  | none => .relock
  | some s1 =>
    if !s1.initialized then .returns ⟨(), s1.unlock, []⟩
    else
      .returns ⟨(),
        AjmPluginLoader.unlock { s1 with plugins := [], initialized := false },
        s1.plugins.flatMap (fun pair => shutdownEntry pair.2)⟩

/-- The method `AjmPluginLoader::loadDynamicPlugin`. -/
def loadDynamicPlugin (os : DynamicLinker) (s : AjmPluginLoader) (pluginPath : String) :
    Outcome Bool :=
  let handle := loadLibrary os pluginPath
  if handle = 0 then .returns ⟨false, s, []⟩
  else
    match os.createPluginInstance handle, os.destroyPluginInstance handle with
    | some createFunc, true =>
      match createFunc () with
      | none => .returns ⟨false, s, Event.createFunc handle :: unloadLibrary handle⟩
      | some p =>
        let info := p.getPluginInfo
        let codecType := info.codecType
        match s.lock with
        | none => .relock
        | some s1 =>
          if (PluginMap.find s1.plugins codecType).isSome then
            -- `destroyFunc(pluginPtr); unloadLibrary(handle); return false;`: at the `return`
            -- the local `unique_ptr plugin`, which was never released and still holds
            -- `pluginPtr`, deletes the instance that `destroyFunc` has destroyed
            .doubleDelete
              (Event.createFunc handle :: Event.destroyFunc p.addr ::
                (unloadLibrary handle ++ [Event.deleteInstance p.addr]))
          else
            let entry : PluginEntry :=
              { plugin := some p, info := info, isBuiltIn := false, libraryHandle := handle }
            .returns ⟨true,
              AjmPluginLoader.unlock
                { s1 with plugins := PluginMap.assign s1.plugins codecType entry },
              [Event.createFunc handle]⟩
    | _, _ => .returns ⟨false, s, unloadLibrary handle⟩

/-- The method `AjmPluginLoader::unloadDynamicPlugin`. -/
def unloadDynamicPlugin (s : AjmPluginLoader) (codecType : String) : Outcome Unit :=
  match s.lock with
  | none => .relock
  | some s1 =>
    match PluginMap.find s1.plugins codecType with
    | none => .returns ⟨(), s1.unlock, []⟩
    | some entry =>
      if entry.isBuiltIn then .returns ⟨(), s1.unlock, []⟩
      else
        .returns ⟨(),
          AjmPluginLoader.unlock { s1 with plugins := PluginMap.erase s1.plugins codecType },
          (match entry.plugin with
            | some p => [Event.pluginShutdown p.addr, Event.deleteInstance p.addr]
            | none => []) ++
          (if entry.libraryHandle != 0 then unloadLibrary entry.libraryHandle else [])⟩

/-- The method `AjmPluginLoader::getPlugin`; the value `none` is `nullptr`. -/
def getPlugin (s : AjmPluginLoader) (codecType : String) : Outcome (Option IAudioPlugin) :=
  match s.lock with
  | none => .relock
  | some s1 =>
    match PluginMap.find s1.plugins codecType with
    | none => .returns ⟨none, s1.unlock, []⟩
    | some entry => .returns ⟨entry.plugin, s1.unlock, []⟩

/-- The method `AjmPluginLoader::getAvailablePlugins`. -/
def getAvailablePlugins (s : AjmPluginLoader) : Outcome (List PluginInfo) :=
  match s.lock with
  | none => .relock
  | some s1 => .returns ⟨s1.plugins.map (fun pair => pair.2.info), s1.unlock, []⟩

/-! ## Reachable states and their invariants -/

/-- The loaders that can be observed between calls: the fresh loader, and whatever a call of a
public operation that returned leaves behind.  The address given out by `new` and the
behaviour of the dynamic linker may differ from call to call. -/
inductive Reachable : AjmPluginLoader → Prop where
  | fresh : Reachable AjmPluginLoader.fresh
  | initializePlugins {s : AjmPluginLoader} (a : Nat) (r : Ret Bool) :
      Reachable s → initializePlugins a s = .returns r → Reachable r.loader
  | shutdownPlugins {s : AjmPluginLoader} (r : Ret Unit) :
      Reachable s → shutdownPlugins s = .returns r → Reachable r.loader
  | registerBuiltInPlugin {s : AjmPluginLoader} (plugin : Option IAudioPlugin) (r : Ret Bool) :
      Reachable s → registerBuiltInPlugin s plugin = .returns r → Reachable r.loader
  | loadDynamicPlugin {s : AjmPluginLoader} (os : DynamicLinker) (pluginPath : String)
      (r : Ret Bool) :
      Reachable s → loadDynamicPlugin os s pluginPath = .returns r → Reachable r.loader
  | unloadDynamicPlugin {s : AjmPluginLoader} (codecType : String) (r : Ret Unit) :
      Reachable s → unloadDynamicPlugin s codecType = .returns r → Reachable r.loader
  | getPlugin {s : AjmPluginLoader} (codecType : String) (r : Ret (Option IAudioPlugin)) :
      Reachable s → getPlugin s codecType = .returns r → Reachable r.loader
  | getAvailablePlugins {s : AjmPluginLoader} (r : Ret (List PluginInfo)) :
      Reachable s → getAvailablePlugins s = .returns r → Reachable r.loader

/-- What holds of a single map element in every reachable loader: it is stored under the codec
type recorded in its info, it has a module handle exactly when it is dynamic, and it owns
an instance, whose `getPluginInfo()` is the recorded info. -/
def EntryOk (pair : String × PluginEntry) : Prop :=
  pair.2.info.codecType = pair.1 ∧
  (pair.2.libraryHandle ≠ 0 ↔ pair.2.isBuiltIn = false) ∧
  ∃ p : IAudioPlugin, pair.2.plugin = some p ∧ pair.2.info = p.getPluginInfo

/-- The invariant of the loader between calls: the mutex is free, no key occurs twice, and every
element satisfies `EntryOk`. -/
def WellFormed (s : AjmPluginLoader) : Prop :=
  s.pluginMutex = false ∧ (s.plugins.map Prod.fst).Nodup ∧ ∀ pair ∈ s.plugins, EntryOk pair

/-! ## plugin_interface.h: formats and decode results -/

/-- Audio format information (`struct AudioFormat`): `uint32_t sampleRate`, `uint16_t channels`,
`uint16_t bitsPerSample`, `uint32_t frameSize`. -/
structure AudioFormat where
  sampleRate : Nat
  channels : Nat
  bitsPerSample : Nat
  frameSize : Nat
  deriving DecidableEq, Repr

/-- Every field of the format fits its C type. -/
def AudioFormat.InRange (f : AudioFormat) : Prop :=
  f.sampleRate < 2 ^ 32 ∧ f.channels < 2 ^ 16 ∧ f.bitsPerSample < 2 ^ 16 ∧ f.frameSize < 2 ^ 32

/-- Decoding result codes (`enum class DecodeResult`). -/
inductive DecodeResult where
  | Success
  | ErrorInvalidInput
  | ErrorInsufficientBuffer
  | ErrorCodecFailure
  | ErrorNotInitialized
  | ErrorEndOfStream
  deriving DecidableEq, Repr

/-! ## Machine integers -/

/-- Conversion to the 32-bit signed `int`: the value modulo `2^32` in `[-2^31, 2^31)`. -/
def toInt32 (x : Int) : Int := (x + 2 ^ 31) % 2 ^ 32 - 2 ^ 31

/-- Conversion to `uint32_t`: the value modulo `2^32`. -/
def toUInt32 (x : Int) : Nat := (x % 2 ^ 32).toNat

/-! ## FFmpeg, as far as OrbisAudioDecoder.cpp uses it -/

/-- The value of FFmpeg's `AVERROR_EOF`, `-MKTAG('E','O','F',' ')`. -/
def AVERROR_EOF : Int := -541478725

/-- The value of FFmpeg's `AVERROR(EAGAIN)` where `EAGAIN` is 11. -/
def AVERROR_EAGAIN : Int := -11

/-- The value of FFmpeg's `AV_CODEC_ID_AAC`. -/
def AV_CODEC_ID_AAC : Nat := 0x15002

/-- What FFmpeg answers to the calls made by `OrbisAudioDecoder::initialize`; a `Bool` says
whether the pointer returned is non-null. -/
structure InitAnswers where
  avcodec_find_decoder : Bool
  avcodec_alloc_context3 : Bool
  avcodec_open2 : Int
  av_frame_alloc : Bool
  av_packet_alloc : Bool
  swr_alloc : Bool
  swr_init : Int

/-- What FFmpeg answers to the calls made by `OrbisAudioDecoder::decodePacket`: the three return
codes and the fields `nb_samples` and `channels` of the frame received. -/
structure DecodeAnswers where
  avcodec_send_packet : Int
  avcodec_receive_frame : Int
  nb_samples : Int
  channels : Int
  swr_convert : Int

/-- The FFmpeg calls made while decoding; `swr_convert` is the only one that writes to the
caller's output buffer. -/
inductive EngineCall where
  | av_packet_unref
  | avcodec_send_packet
  | avcodec_receive_frame
  | swr_convert
  deriving DecidableEq, Repr

/-! ## OrbisAudioDecoder.cpp -/

/-- The data members of `class OrbisAudioDecoder`; each pointer member is recorded as whether it
is non-null. -/
structure OrbisAudioDecoder where
  codecContext : Bool
  swrContext : Bool
  codec : Bool
  frame : Bool
  packet : Bool
  isInitialized : Bool
  deriving DecidableEq, Repr

/-- The constructor `OrbisAudioDecoder::OrbisAudioDecoder`. -/
def OrbisAudioDecoder.fresh : OrbisAudioDecoder :=
  { codecContext := false, swrContext := false, codec := false, frame := false,
    packet := false, isInitialized := false }

/-- The method `OrbisAudioDecoder::cleanup`. -/
def OrbisAudioDecoder.cleanup (_d : OrbisAudioDecoder) : OrbisAudioDecoder :=
  { codecContext := false, swrContext := false, codec := false, frame := false,
    packet := false, isInitialized := false }

/-- The method `OrbisAudioDecoder::initialize`. -/
def OrbisAudioDecoder.initialize (ff : InitAnswers) (_codecId : Nat) (_sampleRate _channels : Int)
    (d : OrbisAudioDecoder) : Bool × OrbisAudioDecoder :=
  let d0 := if d.isInitialized then d.cleanup else d
  let d1 := { d0 with codec := ff.avcodec_find_decoder }
  if !d1.codec then (false, d1)
  else
    let d2 := { d1 with codecContext := ff.avcodec_alloc_context3 }
    if !d2.codecContext then (false, d2)
    else if ff.avcodec_open2 < 0 then (false, d2.cleanup)
    else
      let d3 := { d2 with frame := ff.av_frame_alloc, packet := ff.av_packet_alloc }
      if !d3.frame || !d3.packet then (false, d3.cleanup)
      else
        let d4 := { d3 with swrContext := ff.swr_alloc }
        if !d4.swrContext then (false, d4.cleanup)
        else if ff.swr_init < 0 then (false, d4.cleanup)
        else (true, { d4 with isInitialized := true })

/-- What `decodePacket` hands back: its return code, the last value it stored through the
`outputSize` pointer (`none` when it stored nothing) and the FFmpeg calls it made. -/
structure PacketRet where
  ret : Int
  outputSize : Option Int
  calls : List EngineCall
  deriving DecidableEq, Repr

/-- The method `OrbisAudioDecoder::decodePacket`.  The pointer arguments are given as whether they
are non-null; `packetSize` and `outputBufferSize` are the `int` parameters. -/
def OrbisAudioDecoder.decodePacket (ff : DecodeAnswers) (d : OrbisAudioDecoder)
    (packetData : Bool) (packetSize : Int) (outputBuffer : Bool) (outputBufferSize : Int)
    (outputSize : Bool) : PacketRet :=
  if !d.isInitialized then ⟨-1, none, []⟩
  else if !packetData || packetSize ≤ 0 || !outputBuffer || outputBufferSize ≤ 0 || !outputSize
  then ⟨-1, none, []⟩
  else if ff.avcodec_send_packet < 0 then
    ⟨ff.avcodec_send_packet, some 0, [.av_packet_unref, .avcodec_send_packet]⟩
  else if ff.avcodec_receive_frame < 0 then
    if ff.avcodec_receive_frame = AVERROR_EAGAIN then
      ⟨0, some 0, [.av_packet_unref, .avcodec_send_packet, .avcodec_receive_frame]⟩
    else
      ⟨ff.avcodec_receive_frame, some 0,
        [.av_packet_unref, .avcodec_send_packet, .avcodec_receive_frame]⟩
  else
    let samplesPerChannel := ff.nb_samples
    let channels := ff.channels
    let bytesPerSample : Int := 2
    let requiredSize := toInt32 (toInt32 (samplesPerChannel * channels) * bytesPerSample)
    if requiredSize > outputBufferSize then
      ⟨-2, some 0, [.av_packet_unref, .avcodec_send_packet, .avcodec_receive_frame]⟩
    else
      let convertedSamples := ff.swr_convert
      if convertedSamples < 0 then
        ⟨convertedSamples, some 0,
          [.av_packet_unref, .avcodec_send_packet, .avcodec_receive_frame, .swr_convert]⟩
      else
        ⟨0, some (toInt32 (toInt32 (convertedSamples * channels) * bytesPerSample)),
          [.av_packet_unref, .avcodec_send_packet, .avcodec_receive_frame, .swr_convert]⟩

/-- The method `OrbisAudioDecoder::reset`. -/
def OrbisAudioDecoder.reset (d : OrbisAudioDecoder) : Bool :=
  if !d.isInitialized then false else true

/-! ## plugin_m4aac.cpp: the plugin -/

/-- The data members of `class M4aacAudioPlugin`; `decoder = none` is the null `unique_ptr`. -/
structure M4aacAudioPlugin where
  decoder : Option OrbisAudioDecoder
  inputFormat : AudioFormat
  outputFormat : AudioFormat
  isInitialized : Bool
  deriving DecidableEq, Repr

/-- The constructor `M4aacAudioPlugin::M4aacAudioPlugin`: no decoder, not initialized, both formats
zeroed. -/
def M4aacAudioPlugin.fresh : M4aacAudioPlugin :=
  { decoder := none, inputFormat := ⟨0, 0, 0, 0⟩, outputFormat := ⟨0, 0, 0, 0⟩,
    isInitialized := false }

/-- The method `M4aacAudioPlugin::shutdown`. -/
def M4aacAudioPlugin.shutdown (p : M4aacAudioPlugin) : M4aacAudioPlugin :=
  if p.isInitialized then { p with decoder := none, isInitialized := false } else p

/-- The method `M4aacAudioPlugin::updateOutputFormat`.  The product is formed in `int` (both
operands are promoted) and stored in the `uint32_t` field. -/
def M4aacAudioPlugin.updateOutputFormat (p : M4aacAudioPlugin) : M4aacAudioPlugin :=
  let o1 : AudioFormat :=
    { p.outputFormat with
      sampleRate := p.inputFormat.sampleRate, channels := p.inputFormat.channels,
      bitsPerSample := 16 }
  { p with
    outputFormat :=
      { o1 with
        frameSize := toUInt32 (toInt32 (((o1.bitsPerSample / 8 : Nat) : Int) * (o1.channels : Int))) } }

/-- The method `M4aacAudioPlugin::initialize`. -/
def M4aacAudioPlugin.initialize (ff : InitAnswers) (format : AudioFormat) (p : M4aacAudioPlugin) :
    Bool × M4aacAudioPlugin :=
  let p0 := if p.isInitialized then p.shutdown else p
  if format.sampleRate = 0 ∨ format.channels = 0 then (false, p0)
  else
    let p1 := { p0 with inputFormat := format }
    let made := OrbisAudioDecoder.initialize ff AV_CODEC_ID_AAC (toInt32 format.sampleRate)
      (format.channels : Int) OrbisAudioDecoder.fresh
    if !made.1 then (false, { p1 with decoder := none })
    else
      let p2 := M4aacAudioPlugin.updateOutputFormat { p1 with decoder := some made.2 }
      (true, { p2 with isInitialized := true })

/-- What `decode` hands back: the result code, the value stored through the caller's `outputSize`
pointer (`none` when nothing was stored) and the FFmpeg calls made. -/
structure DecodeRet where
  result : DecodeResult
  outputSize : Option Nat
  calls : List EngineCall
  deriving DecidableEq, Repr

/-- The method `M4aacAudioPlugin::decode`.  The pointer arguments are given as whether they are
non-null; `inputSize` and `outputBufferSize` are the `uint32_t` parameters. -/
def M4aacAudioPlugin.decode (ff : DecodeAnswers) (p : M4aacAudioPlugin) (inputData : Bool)
    (inputSize : Nat) (outputBuffer : Bool) (outputBufferSize : Nat) (outputSize : Bool) :
    DecodeRet :=
  match p.isInitialized, p.decoder with
  | true, some d =>
    if !inputData || inputSize = 0 then ⟨.ErrorInvalidInput, none, []⟩
    else if !outputBuffer || outputBufferSize = 0 || !outputSize then
      ⟨.ErrorInvalidInput, none, []⟩
    else
      let r := OrbisAudioDecoder.decodePacket ff d inputData (toInt32 inputSize) outputBuffer
        (toInt32 outputBufferSize) true
      let actualOutputSize : Int := r.outputSize.getD 0
      if r.ret = 0 then ⟨.Success, some (toUInt32 actualOutputSize), r.calls⟩
      else if r.ret = -2 then ⟨.ErrorInsufficientBuffer, none, r.calls⟩
      else if r.ret = AVERROR_EOF then ⟨.ErrorEndOfStream, none, r.calls⟩
      else ⟨.ErrorCodecFailure, none, r.calls⟩
  | _, _ => ⟨.ErrorNotInitialized, none, []⟩

/-- The method `M4aacAudioPlugin::getOutputFormat`. -/
def M4aacAudioPlugin.getOutputFormat (p : M4aacAudioPlugin) : AudioFormat := p.outputFormat

/-- The method `M4aacAudioPlugin::reset`. -/
def M4aacAudioPlugin.reset (p : M4aacAudioPlugin) : Bool :=
  match p.isInitialized, p.decoder with
  | true, some d => d.reset
  | _, _ => false

/-- The states a plugin object can be in: as constructed, and after any call of `initialize`
(whatever FFmpeg answers, whatever the format) or `shutdown`.  The methods `decode`, `reset`
and `getOutputFormat` leave the members as they are. -/
inductive M4aacAudioPlugin.Reachable : M4aacAudioPlugin → Prop where
  | fresh : M4aacAudioPlugin.Reachable M4aacAudioPlugin.fresh
  | afterInitialize {p : M4aacAudioPlugin} (ff : InitAnswers) (format : AudioFormat) :
      M4aacAudioPlugin.Reachable p →
      M4aacAudioPlugin.Reachable ( M4aacAudioPlugin.initialize ff format p).2
  | afterShutdown {p : M4aacAudioPlugin} :
      M4aacAudioPlugin.Reachable p → M4aacAudioPlugin.Reachable p.shutdown

/-- The link between the plugin's flag and its decoder in every reachable state: an initialized
plugin holds an initialized decoder, an uninitialized plugin holds none. -/
def M4aacAudioPlugin.Consistent (p : M4aacAudioPlugin) : Prop :=
  (p.isInitialized = true → ∃ d : OrbisAudioDecoder, p.decoder = some d ∧ d.isInitialized = true) ∧
  (p.isInitialized = false → p.decoder = none)

/-! ## Reading an event list -/

/-- Whether the event is an instance shutdown (`plugin->shutdown()`). -/
def Event.isPluginShutdown : Event → Bool
  | .pluginShutdown _ => true
  | _ => false

/-- Whether the event releases an instance through its `std::unique_ptr`. -/
def Event.isDeleteInstance : Event → Bool
  | .deleteInstance _ => true
  | _ => false

/-- Whether the event closes a module. -/
def Event.isCloseLibrary : Event → Bool
  | .closeLibrary _ => true
  | _ => false

/-- Whether the event destroys the instance at address `a`: the module's
`destroyPluginInstance` called on it, or its deletion by a `std::unique_ptr`. -/
def Event.destroys (a : Nat) : Event → Bool
  | .destroyFunc b => a = b
  | .deleteInstance b => a = b
  | _ => false

/-! ## Concrete data used in the examples -/

/-- A built-in M4AAC decoder living at address 1. -/
def decoderA : IAudioPlugin := { addr := 1, pluginInfo := M4aacAudioPlugin.getPluginInfo }

/-- A second instance, at address 2, that also reports the codec type "M4AAC". -/
def decoderB : IAudioPlugin :=
  { addr := 2,
    pluginInfo := { name := "Other AAC", version := "2.0", codecType := "M4AAC", apiVersion := 7 } }

/-- An instance at address 3 reporting the codec type "OPUS". -/
def decoderOpus : IAudioPlugin :=
  { addr := 3,
    pluginInfo := { name := "Opus", version := "0.1", codecType := "OPUS", apiVersion := 65536 } }

/-- A linker that knows three modules.  "opus.so" opens at handle 9 and exports both entry
points, its factory producing `decoderOpus`; "nosym.so" opens at handle 10 and lacks
`createPluginInstance`; "null.so" opens at handle 11, exports both entry points, and its
factory returns a null pointer.  Every other path fails to open. -/
def linkerDemo : DynamicLinker :=
  { dlopen := fun path =>
      if path = "opus.so" then 9 else if path = "nosym.so" then 10
      else if path = "null.so" then 11 else 0
    createPluginInstance := fun h =>
      if h = 9 then some (fun _ => some decoderOpus)
      else if h = 11 then some (fun _ => none) else none
    destroyPluginInstance := fun h => h = 9 || h = 10 || h = 11 }

/-- A loader, not initialized, holding `decoderA` as a built-in entry. -/
def loaderA : AjmPluginLoader :=
  { plugins := [("M4AAC", { plugin := some decoderA, info := M4aacAudioPlugin.getPluginInfo,
                            isBuiltIn := true, libraryHandle := 0 })],
    pluginMutex := false, initialized := false }

/-- A loader, initialized, holding `decoderA` as a built-in entry and `decoderOpus` as a dynamic
entry backed by the module handle 9. -/
def loaderAOpus : AjmPluginLoader :=
  { plugins := [("M4AAC", { plugin := some decoderA, info := M4aacAudioPlugin.getPluginInfo,
                            isBuiltIn := true, libraryHandle := 0 }),
                ("OPUS", { plugin := some decoderOpus, info := decoderOpus.pluginInfo,
                           isBuiltIn := false, libraryHandle := 9 })],
    pluginMutex := false, initialized := true }

/-- A loader, not initialized, holding `decoderA` as a built-in entry and `decoderOpus` as a
dynamic entry backed by the module handle 9. -/
def loaderCold : AjmPluginLoader :=
  { plugins := [("M4AAC", { plugin := some decoderA, info := M4aacAudioPlugin.getPluginInfo,
                            isBuiltIn := true, libraryHandle := 0 }),
                ("OPUS", { plugin := some decoderOpus, info := decoderOpus.pluginInfo,
                           isBuiltIn := false, libraryHandle := 9 })],
    pluginMutex := false, initialized := false }

/-- FFmpeg answers with which `OrbisAudioDecoder::initialize` succeeds. -/
def answersGood : InitAnswers :=
  { avcodec_find_decoder := true, avcodec_alloc_context3 := true, avcodec_open2 := 0,
    av_frame_alloc := true, av_packet_alloc := true, swr_alloc := true, swr_init := 0 }

/-- FFmpeg answers in which `avcodec_open2` fails with -22. -/
def answersOpenFails : InitAnswers :=
  { avcodec_find_decoder := true, avcodec_alloc_context3 := true, avcodec_open2 := -22,
    av_frame_alloc := true, av_packet_alloc := true, swr_alloc := true, swr_init := 0 }

/-- A stereo 48 kHz input format whose `bitsPerSample` is 24. -/
def format48k : AudioFormat :=
  { sampleRate := 48000, channels := 2, bitsPerSample := 24, frameSize := 0 }

/-- A format with `sampleRate = 0`. -/
def formatNoRate : AudioFormat :=
  { sampleRate := 0, channels := 2, bitsPerSample := 16, frameSize := 0 }

/-- The plugin after a successful `initialize(format48k)` on a new instance. -/
def pluginReady : M4aacAudioPlugin :=
  ( M4aacAudioPlugin.initialize answersGood format48k M4aacAudioPlugin.fresh).2

/-- FFmpeg answers for one packet: it is accepted and a frame of 1024 samples in 2 channels is
received (4096 bytes of 16-bit PCM); `swr_convert` converts all 1024 samples. -/
def answersFrame1024 : DecodeAnswers :=
  { avcodec_send_packet := 0, avcodec_receive_frame := 0, nb_samples := 1024, channels := 2,
    swr_convert := 1024 }

/-- FFmpeg answers for one packet: it is accepted and `avcodec_receive_frame` reports the end of
the stream. -/
def answersEndOfStream : DecodeAnswers :=
  { avcodec_send_packet := 0, avcodec_receive_frame := AVERROR_EOF, nb_samples := 0,
    channels := 0, swr_convert := 0 }

/-- FFmpeg answers for one packet that `avcodec_send_packet` refuses with -22. -/
def answersSendFails : DecodeAnswers :=
  { avcodec_send_packet := -22, avcodec_receive_frame := 0, nb_samples := 0, channels := 0,
    swr_convert := 0 }

/-- The decoder held by `pluginReady`: every FFmpeg object allocated, `isInitialized = true`. -/
def decoderReady : OrbisAudioDecoder :=
  { codecContext := true, swrContext := true, codec := true, frame := true, packet := true,
    isInitialized := true }

/-! ## Basic facts: the mutex and the map -/

theorem lock_of_free (s : AjmPluginLoader) (h : s.pluginMutex = false) :
    s.lock = some { s with pluginMutex := true } := by
  simp [AjmPluginLoader.lock, h]

theorem lock_of_held (s : AjmPluginLoader) (h : s.pluginMutex = true) : s.lock = none := by
  simp [AjmPluginLoader.lock, h]

theorem unlock_locked (s : AjmPluginLoader) (h : s.pluginMutex = false) :
    AjmPluginLoader.unlock { s with pluginMutex := true } = s := by
  cases s
  simp_all [AjmPluginLoader.unlock]

theorem PluginMap.find_assign_self (m : PluginMap) (key : String) (entry : PluginEntry) :
    PluginMap.find (PluginMap.assign m key entry) key = some entry := by
  induction m with
  | nil => simp [PluginMap.assign, PluginMap.find]
  | cons hd tl ih =>
    obtain ⟨k, e⟩ := hd
    by_cases hk : k = key
    · simp [PluginMap.assign, PluginMap.find, hk]
    · simp [PluginMap.assign, PluginMap.find, hk, ih]

theorem PluginMap.find_assign_ne (m : PluginMap) (key g : String) (entry : PluginEntry)
    (hg : g ≠ key) :
    PluginMap.find (PluginMap.assign m key entry) g = PluginMap.find m g := by
  induction m with
  | nil => simp [PluginMap.assign, PluginMap.find, Ne.symm hg]
  | cons hd tl ih =>
    obtain ⟨k, e⟩ := hd
    by_cases hk : k = key
    · subst hk
      simp [PluginMap.assign, PluginMap.find, Ne.symm hg]
    · by_cases hkg : k = g
      · subst hkg
        simp [PluginMap.assign, PluginMap.find, hk]
      · simp [PluginMap.assign, PluginMap.find, hk, hkg, ih]

theorem PluginMap.assign_of_find_none (m : PluginMap) (key : String) (entry : PluginEntry)
    (h : PluginMap.find m key = none) :
    PluginMap.assign m key entry = m ++ [(key, entry)] := by
  induction m with
  | nil => simp [PluginMap.assign]
  | cons hd tl ih =>
    obtain ⟨k, e⟩ := hd
    by_cases hk : k = key
    · simp [PluginMap.find, hk] at h
    · simp only [PluginMap.find, hk, if_false] at h
      simp [PluginMap.assign, hk, ih h]

theorem PluginMap.find_eq_none_iff (m : PluginMap) (key : String) :
    PluginMap.find m key = none ↔ key ∉ m.map Prod.fst := by
  induction m with
  | nil => simp [PluginMap.find]
  | cons hd tl ih =>
    obtain ⟨k, e⟩ := hd
    by_cases hk : k = key
    · simp [PluginMap.find, hk]
    · simp only [PluginMap.find, hk, if_false, ih, List.map_cons, List.mem_cons, not_or]
      exact ⟨fun h => ⟨Ne.symm hk, h⟩, fun h => h.2⟩

theorem PluginMap.mem_of_find (m : PluginMap) (key : String) (entry : PluginEntry)
    (h : PluginMap.find m key = some entry) : (key, entry) ∈ m := by
  induction m with
  | nil => simp [PluginMap.find] at h
  | cons hd tl ih =>
    obtain ⟨k, e⟩ := hd
    by_cases hk : k = key
    · simp only [PluginMap.find, hk, if_true, Option.some.injEq] at h
      simp [hk, h]
    · simp only [PluginMap.find, hk, if_false] at h
      exact List.mem_cons_of_mem _ (ih h)

theorem PluginMap.erase_sublist (m : PluginMap) (key : String) :
    List.Sublist (PluginMap.erase m key) m := by
  induction m with
  | nil => simp [PluginMap.erase]
  | cons hd tl ih =>
    obtain ⟨k, e⟩ := hd
    by_cases hk : k = key
    · simp [PluginMap.erase, hk]
    · simp [PluginMap.erase, hk, ih]

/-! ## More facts about the map -/

theorem PluginMap.find_erase_ne (m : PluginMap) (key g : String) (hg : g ≠ key) :
    PluginMap.find (PluginMap.erase m key) g = PluginMap.find m g := by
  induction m with
  | nil => simp [PluginMap.erase]
  | cons hd tl ih =>
    obtain ⟨k, e⟩ := hd
    by_cases hk : k = key
    · subst hk
      simp [PluginMap.erase, PluginMap.find, Ne.symm hg]
    · by_cases hkg : k = g
      · subst hkg
        simp [PluginMap.erase, PluginMap.find, hk]
      · simp [PluginMap.erase, PluginMap.find, hk, hkg, ih]

theorem PluginMap.find_erase_self (m : PluginMap) (key : String)
    (hnodup : (m.map Prod.fst).Nodup) :
    PluginMap.find (PluginMap.erase m key) key = none := by
  induction m with
  | nil => simp [PluginMap.erase, PluginMap.find]
  | cons hd tl ih =>
    obtain ⟨k, e⟩ := hd
    simp only [List.map_cons, List.nodup_cons] at hnodup
    by_cases hk : k = key
    · subst hk
      simp only [PluginMap.erase, if_true]
      exact (PluginMap.find_eq_none_iff tl k).2 hnodup.1
    · simp [PluginMap.erase, PluginMap.find, hk, ih hnodup.2]

theorem PluginMap.length_erase (m : PluginMap) (key : String) (entry : PluginEntry)
    (h : PluginMap.find m key = some entry) :
    (PluginMap.erase m key).length + 1 = m.length := by
  induction m with
  | nil => simp [PluginMap.find] at h
  | cons hd tl ih =>
    obtain ⟨k, e⟩ := hd
    by_cases hk : k = key
    · simp [PluginMap.erase, hk]
    · simp only [PluginMap.find, hk, if_false] at h
      simp [PluginMap.erase, hk, ih h]

/-! ## The operations when the mutex is free -/

theorem registerBuiltInPlugin_free (s : AjmPluginLoader) (p : IAudioPlugin)
    (hfree : s.pluginMutex = false) :
    registerBuiltInPlugin s (some p) =
      if (PluginMap.find s.plugins p.getPluginInfo.codecType).isSome then
        .returns ⟨false, s, [Event.deleteInstance p.addr]⟩
      else
        .returns ⟨true,
          { s with
            plugins := PluginMap.assign s.plugins p.getPluginInfo.codecType
              ⟨some p, p.getPluginInfo, true, 0⟩ }, []⟩ := by
  cases s
  simp_all [registerBuiltInPlugin, AjmPluginLoader.lock, AjmPluginLoader.unlock]

theorem getPlugin_free (s : AjmPluginLoader) (codecType : String)
    (hfree : s.pluginMutex = false) :
    getPlugin s codecType =
      .returns ⟨(PluginMap.find s.plugins codecType).bind (fun entry => entry.plugin), s, []⟩ := by
  cases s
  simp only [getPlugin, AjmPluginLoader.lock, AjmPluginLoader.unlock] at *
  subst hfree
  simp only [Bool.false_eq_true, if_false]
  split <;> simp_all

theorem getAvailablePlugins_free (s : AjmPluginLoader) (hfree : s.pluginMutex = false) :
    getAvailablePlugins s = .returns ⟨s.plugins.map (fun pair => pair.2.info), s, []⟩ := by
  cases s
  simp_all [getAvailablePlugins, AjmPluginLoader.lock, AjmPluginLoader.unlock]

theorem loadDynamicPlugin_free (os : DynamicLinker) (s : AjmPluginLoader) (pluginPath : String)
    (hfree : s.pluginMutex = false) :
    loadDynamicPlugin os s pluginPath =
      if os.dlopen pluginPath = 0 then .returns ⟨false, s, []⟩
      else
        match os.createPluginInstance (os.dlopen pluginPath),
            os.destroyPluginInstance (os.dlopen pluginPath) with
        | some createFunc, true =>
          match createFunc () with
          | none =>
            .returns ⟨false, s,
              Event.createFunc (os.dlopen pluginPath) :: unloadLibrary (os.dlopen pluginPath)⟩
          | some p =>
            if (PluginMap.find s.plugins p.getPluginInfo.codecType).isSome then
              .doubleDelete
                (Event.createFunc (os.dlopen pluginPath) :: Event.destroyFunc p.addr ::
                  (unloadLibrary (os.dlopen pluginPath) ++ [Event.deleteInstance p.addr]))
            else
              .returns ⟨true,
                { s with
                  plugins := PluginMap.assign s.plugins p.getPluginInfo.codecType
                    ⟨some p, p.getPluginInfo, false, os.dlopen pluginPath⟩ },
                [Event.createFunc (os.dlopen pluginPath)]⟩
        | _, _ => .returns ⟨false, s, unloadLibrary (os.dlopen pluginPath)⟩ := by
  cases s
  simp only at hfree
  subst hfree
  simp only [loadDynamicPlugin, loadLibrary, AjmPluginLoader.lock, AjmPluginLoader.unlock,
    Bool.false_eq_true, if_false]

theorem unloadDynamicPlugin_free (s : AjmPluginLoader) (codecType : String)
    (hfree : s.pluginMutex = false) :
    unloadDynamicPlugin s codecType =
      match PluginMap.find s.plugins codecType with
      | none => .returns ⟨(), s, []⟩
      | some entry =>
        if entry.isBuiltIn then .returns ⟨(), s, []⟩
        else
          .returns ⟨(), { s with plugins := PluginMap.erase s.plugins codecType },
            (match entry.plugin with
              | some p => [Event.pluginShutdown p.addr, Event.deleteInstance p.addr]
              | none => []) ++
            (if entry.libraryHandle != 0 then unloadLibrary entry.libraryHandle else [])⟩ := by
  cases s
  simp only at hfree
  subst hfree
  simp only [unloadDynamicPlugin, AjmPluginLoader.lock, AjmPluginLoader.unlock,
    Bool.false_eq_true, if_false]

theorem shutdownPlugins_free (s : AjmPluginLoader) (hfree : s.pluginMutex = false) :
    shutdownPlugins s =
      if s.initialized then
        .returns ⟨(), { s with plugins := [], initialized := false },
          s.plugins.flatMap (fun pair => shutdownEntry pair.2)⟩
      else .returns ⟨(), s, []⟩ := by
  cases s
  simp only at hfree
  subst hfree
  simp only [shutdownPlugins, AjmPluginLoader.lock, AjmPluginLoader.unlock,
    Bool.false_eq_true, if_false]
  split <;> simp_all

theorem initializePlugins_free (a : Nat) (s : AjmPluginLoader) (hfree : s.pluginMutex = false) :
    initializePlugins a s = if s.initialized then .returns ⟨true, s, []⟩ else .relock := by
  cases s
  simp only at hfree
  subst hfree
  simp only [initializePlugins, AjmPluginLoader.lock, AjmPluginLoader.unlock,
    registerBuiltInPlugins, createM4aacPlugin, createPluginInstance, registerBuiltInPlugin,
    Bool.false_eq_true, if_false, if_true]

/-! ## The invariant is kept by every operation -/

theorem wellFormed_fresh : WellFormed AjmPluginLoader.fresh := by
  simp [WellFormed, AjmPluginLoader.fresh]

theorem wellFormed_assign (s : AjmPluginLoader) (key : String) (entry : PluginEntry)
    (hs : WellFormed s) (hnone : ¬ (PluginMap.find s.plugins key).isSome)
    (hentry : EntryOk (key, entry)) :
    WellFormed { s with plugins := PluginMap.assign s.plugins key entry } := by
  obtain ⟨hfree, hnodup, hall⟩ := hs
  have hnone1 : PluginMap.find s.plugins key = none := by
    cases h : PluginMap.find s.plugins key with
    | none => rfl
    | some e => simp [h] at hnone
  have hnot := (PluginMap.find_eq_none_iff s.plugins key).1 hnone1
  refine ⟨hfree, ?_, ?_⟩
  · simp only [PluginMap.assign_of_find_none _ _ _ hnone1, List.map_append, List.map_cons,
      List.map_nil]
    rw [List.nodup_append]
    refine ⟨hnodup, List.nodup_singleton key, ?_⟩
    intro k hk hk2
    rw [List.mem_singleton] at hk2
    subst hk2
    exact hnot hk
  · intro pair hmem
    simp only [PluginMap.assign_of_find_none _ _ _ hnone1, List.mem_append,
      List.mem_singleton] at hmem
    rcases hmem with h | h
    · exact hall pair h
    · rw [h]
      exact hentry

theorem wellFormed_erase (s : AjmPluginLoader) (key : String) (hs : WellFormed s) :
    WellFormed { s with plugins := PluginMap.erase s.plugins key } := by
  obtain ⟨hfree, hnodup, hall⟩ := hs
  have hsub := PluginMap.erase_sublist s.plugins key
  exact ⟨hfree, List.Nodup.sublist (List.Sublist.map Prod.fst hsub) hnodup,
    fun pair hmem => hall pair (hsub.subset hmem)⟩

theorem wellFormed_registerBuiltInPlugin (s : AjmPluginLoader) (plugin : Option IAudioPlugin)
    (r : Ret Bool) (hs : WellFormed s) (h : registerBuiltInPlugin s plugin = .returns r) :
    WellFormed r.loader := by
  cases plugin with
  | none =>
    simp only [registerBuiltInPlugin, Outcome.returns.injEq] at h
    rw [← h]
    exact hs
  | some p =>
    rw [registerBuiltInPlugin_free s p hs.1] at h
    by_cases hdup : (PluginMap.find s.plugins p.getPluginInfo.codecType).isSome
    · simp only [hdup, if_true, Outcome.returns.injEq] at h
      rw [← h]
      exact hs
    · simp only [hdup, Bool.false_eq_true, if_false, Outcome.returns.injEq] at h
      rw [← h]
      exact wellFormed_assign s _ _ hs hdup ⟨rfl, by simp, p, rfl, rfl⟩

theorem wellFormed_loadDynamicPlugin (os : DynamicLinker) (s : AjmPluginLoader)
    (pluginPath : String) (r : Ret Bool) (hs : WellFormed s)
    (h : loadDynamicPlugin os s pluginPath = .returns r) : WellFormed r.loader := by
  rw [loadDynamicPlugin_free os s pluginPath hs.1] at h
  by_cases h0 : os.dlopen pluginPath = 0
  · simp only [h0, if_true, Outcome.returns.injEq] at h
    rw [← h]
    exact hs
  · simp only [h0, if_false] at h
    cases hc : os.createPluginInstance (os.dlopen pluginPath) with
    | none =>
      simp only [hc, Outcome.returns.injEq] at h
      rw [← h]
      exact hs
    | some createFunc =>
      cases hd : os.destroyPluginInstance (os.dlopen pluginPath) with
      | false =>
        simp only [hc, hd, Outcome.returns.injEq] at h
        rw [← h]
        exact hs
      | true =>
        simp only [hc, hd] at h
        cases hp : createFunc () with
        | none =>
          simp only [hp, Outcome.returns.injEq] at h
          rw [← h]
          exact hs
        | some p =>
          simp only [hp] at h
          by_cases hdup : (PluginMap.find s.plugins p.getPluginInfo.codecType).isSome
          · simp only [hdup, if_true] at h
            cases h
          · simp only [hdup, Bool.false_eq_true, if_false, Outcome.returns.injEq] at h
            rw [← h]
            exact wellFormed_assign s _ _ hs hdup ⟨rfl, by simp [h0], p, rfl, rfl⟩

theorem wellFormed_unloadDynamicPlugin (s : AjmPluginLoader) (codecType : String)
    (r : Ret Unit) (hs : WellFormed s) (h : unloadDynamicPlugin s codecType = .returns r) :
    WellFormed r.loader := by
  rw [unloadDynamicPlugin_free s codecType hs.1] at h
  cases hf : PluginMap.find s.plugins codecType with
  | none =>
    simp only [hf, Outcome.returns.injEq] at h
    rw [← h]
    exact hs
  | some entry =>
    simp only [hf] at h
    cases hb : entry.isBuiltIn with
    | true =>
      simp only [hb, if_true, Outcome.returns.injEq] at h
      rw [← h]
      exact hs
    | false =>
      simp only [hb, Bool.false_eq_true, if_false, Outcome.returns.injEq] at h
      rw [← h]
      exact wellFormed_erase s codecType hs

theorem wellFormed_shutdownPlugins (s : AjmPluginLoader) (r : Ret Unit) (hs : WellFormed s)
    (h : shutdownPlugins s = .returns r) : WellFormed r.loader := by
  rw [shutdownPlugins_free s hs.1] at h
  cases hi : s.initialized with
  | true =>
    simp only [hi, if_true, Outcome.returns.injEq] at h
    rw [← h]
    exact ⟨hs.1, by simp, by simp⟩
  | false =>
    simp only [hi, Bool.false_eq_true, if_false, Outcome.returns.injEq] at h
    rw [← h]
    exact hs

theorem wellFormed_initializePlugins (a : Nat) (s : AjmPluginLoader) (r : Ret Bool)
    (hs : WellFormed s) (h : initializePlugins a s = .returns r) : WellFormed r.loader := by
  rw [initializePlugins_free a s hs.1] at h
  cases hi : s.initialized with
  | true =>
    simp only [hi, if_true, Outcome.returns.injEq] at h
    rw [← h]
    exact hs
  | false => simp [hi] at h

theorem wellFormed_of_reachable (s : AjmPluginLoader) (h : Reachable s) : WellFormed s := by
  induction h with
  | fresh => exact wellFormed_fresh
  | initializePlugins a r _ hr ih => exact wellFormed_initializePlugins a _ r ih hr
  | shutdownPlugins r _ hr ih => exact wellFormed_shutdownPlugins _ r ih hr
  | registerBuiltInPlugin plugin r _ hr ih =>
    exact wellFormed_registerBuiltInPlugin _ plugin r ih hr
  | loadDynamicPlugin os pluginPath r _ hr ih =>
    exact wellFormed_loadDynamicPlugin os _ pluginPath r ih hr
  | unloadDynamicPlugin codecType r _ hr ih =>
    exact wellFormed_unloadDynamicPlugin _ codecType r ih hr
  | getPlugin codecType r _ hr ih =>
    rw [getPlugin_free _ codecType ih.1] at hr
    simp only [Outcome.returns.injEq] at hr
    rw [← hr]
    exact ih
  | getAvailablePlugins r _ hr ih =>
    rw [getAvailablePlugins_free _ ih.1] at hr
    simp only [Outcome.returns.injEq] at hr
    rw [← hr]
    exact ih

theorem reachable_loaderCold : Reachable loaderCold :=
  Reachable.loadDynamicPlugin linkerDemo "opus.so" ⟨true, loaderCold, [Event.createFunc 9]⟩
    (Reachable.registerBuiltInPlugin (some decoderA) ⟨true, loaderA, []⟩ Reachable.fresh
      (by decide))
    (by decide)

/-! ## C1: rejected registrations -/

/-- C1: with the mutex free, `registerBuiltInPlugin` on a null instance, or on an instance whose
reported codec type already has an entry, returns false and hands back the loader it was
given (so the entries, their instances and `getAvailablePlugins` are what they were).  When two
instances `p` and `q` report the same codec type and that type has no entry, registering `p`
returns true, registering `q` afterwards returns false and leaves the loader as the first
call left it, and `getAvailablePlugins` then yields the earlier infos followed by the info of
`p` only, as long as it was before the second call. -/
theorem registerBuiltInPlugin_rejects (s : AjmPluginLoader) (p q : IAudioPlugin)
    (hfree : s.pluginMutex = false) :
    (registerBuiltInPlugin s none = .returns ⟨false, s, []⟩) ∧
    ((PluginMap.find s.plugins p.getPluginInfo.codecType).isSome →
      registerBuiltInPlugin s (some p) = .returns ⟨false, s, [Event.deleteInstance p.addr]⟩ ∧
      (getAvailablePlugins s).value? = some (s.plugins.map (fun pair => pair.2.info))) ∧
    (PluginMap.find s.plugins p.getPluginInfo.codecType = none →
      q.getPluginInfo.codecType = p.getPluginInfo.codecType →
      ∃ s1 : AjmPluginLoader,
        registerBuiltInPlugin s (some p) = .returns ⟨true, s1, []⟩ ∧
        registerBuiltInPlugin s1 (some q) = .returns ⟨false, s1, [Event.deleteInstance q.addr]⟩ ∧
        (getAvailablePlugins s1).value? =
          some (s.plugins.map (fun pair => pair.2.info) ++ [p.getPluginInfo]) ∧
        (s1.plugins.map (fun pair => pair.2.info)).length = s.plugins.length + 1 ∧
        PluginMap.find s1.plugins p.getPluginInfo.codecType =
          some ⟨some p, p.getPluginInfo, true, 0⟩) := by
  refine ⟨rfl, ?_, ?_⟩
  · intro hdup
    rw [registerBuiltInPlugin_free s p hfree, getAvailablePlugins_free s hfree]
    simp [hdup, Outcome.value?]
  · intro hnone hsame
    have hfree1 : ({ s with
        plugins := PluginMap.assign s.plugins p.getPluginInfo.codecType
          ⟨some p, p.getPluginInfo, true, 0⟩ } : AjmPluginLoader).pluginMutex = false := hfree
    refine ⟨{ s with
        plugins := PluginMap.assign s.plugins p.getPluginInfo.codecType
          ⟨some p, p.getPluginInfo, true, 0⟩ }, ?_, ?_, ?_, ?_, ?_⟩
    · rw [registerBuiltInPlugin_free s p hfree]
      simp [hnone]
    · rw [registerBuiltInPlugin_free _ q hfree1]
      simp [hsame, PluginMap.find_assign_self]
    · rw [getAvailablePlugins_free _ hfree1]
      simp [Outcome.value?, PluginMap.assign_of_find_none _ _ _ hnone]
    · simp [PluginMap.assign_of_find_none _ _ _ hnone]
    · simp [PluginMap.find_assign_self]

/-- C1 at concrete inputs: on the loader holding `decoderA`, a null instance and `decoderB`
(same codec type) are both rejected; on the fresh loader `decoderA` is accepted, `decoderB`
is then rejected, and the listing holds the info of `decoderA` only. -/
theorem registerBuiltInPlugin_rejects_witness :
    registerBuiltInPlugin loaderA none = .returns ⟨false, loaderA, []⟩ ∧
    registerBuiltInPlugin loaderA (some decoderB) =
      .returns ⟨false, loaderA, [Event.deleteInstance 2]⟩ ∧
    (∃ s1 : AjmPluginLoader,
      registerBuiltInPlugin AjmPluginLoader.fresh (some decoderA) = .returns ⟨true, s1, []⟩ ∧
      registerBuiltInPlugin s1 (some decoderB) =
        .returns ⟨false, s1, [Event.deleteInstance 2]⟩ ∧
      (getAvailablePlugins s1).value? = some [M4aacAudioPlugin.getPluginInfo]) :=
  ⟨(registerBuiltInPlugin_rejects loaderA decoderB decoderB rfl).1,
   ((registerBuiltInPlugin_rejects loaderA decoderB decoderB rfl).2.1 (by decide)).1,
   by
    obtain ⟨s1, h1, h2, h3, _, _⟩ :=
      (registerBuiltInPlugin_rejects AjmPluginLoader.fresh decoderA decoderB rfl).2.2
        (by decide) (by decide)
    exact ⟨s1, h1, h2, h3⟩⟩

/-! ## C2: a successful registration can be looked up -/

/-- C2: with the mutex free, registering a non-null instance `p` whose reported codec type `f`
has no entry returns true; afterwards `getPlugin f` returns `p` itself, the entry under `f`
holds `p` with the info `p` reported (codec type `f`), is marked built-in and has no
module handle; the entry found under every other codec type is what it was, and the
`initialized` flag is untouched. -/
theorem registerBuiltInPlugin_getPlugin (s : AjmPluginLoader) (p : IAudioPlugin)
    (hfree : s.pluginMutex = false)
    (hnone : PluginMap.find s.plugins p.getPluginInfo.codecType = none) :
    ∃ s1 : AjmPluginLoader,
      registerBuiltInPlugin s (some p) = .returns ⟨true, s1, []⟩ ∧
      (getPlugin s1 p.getPluginInfo.codecType).value? = some (some p) ∧
      PluginMap.find s1.plugins p.getPluginInfo.codecType =
        some { plugin := some p, info := p.getPluginInfo, isBuiltIn := true,
               libraryHandle := 0 } ∧
      (∀ g : String, g ≠ p.getPluginInfo.codecType →
        PluginMap.find s1.plugins g = PluginMap.find s.plugins g ∧
        (getPlugin s1 g).value? = (getPlugin s g).value?) ∧
      s1.plugins = s.plugins ++ [(p.getPluginInfo.codecType,
        { plugin := some p, info := p.getPluginInfo, isBuiltIn := true, libraryHandle := 0 })] ∧
      s1.initialized = s.initialized := by
  have hfree1 : ({ s with
      plugins := PluginMap.assign s.plugins p.getPluginInfo.codecType
        ⟨some p, p.getPluginInfo, true, 0⟩ } : AjmPluginLoader).pluginMutex = false := hfree
  refine ⟨{ s with
      plugins := PluginMap.assign s.plugins p.getPluginInfo.codecType
        ⟨some p, p.getPluginInfo, true, 0⟩ }, ?_, ?_, ?_, ?_, ?_, rfl⟩
  · rw [registerBuiltInPlugin_free s p hfree]
    simp [hnone]
  · rw [getPlugin_free _ _ hfree1]
    simp [Outcome.value?, PluginMap.find_assign_self]
  · simp [PluginMap.find_assign_self]
  · intro g hg
    rw [getPlugin_free _ _ hfree1, getPlugin_free _ _ hfree]
    simp [Outcome.value?, PluginMap.find_assign_ne _ _ _ _ hg]
  · simp [PluginMap.assign_of_find_none _ _ _ hnone]

/-- C2 at a concrete input: registering the M4AAC decoder on the fresh loader and looking up
"M4AAC" yields that decoder, whose `getPluginInfo().codecType` is "M4AAC". -/
theorem registerBuiltInPlugin_getPlugin_witness :
    ∃ s1 : AjmPluginLoader,
      registerBuiltInPlugin AjmPluginLoader.fresh (some decoderA) = .returns ⟨true, s1, []⟩ ∧
      (getPlugin s1 "M4AAC").value? = some (some decoderA) ∧
      decoderA.getPluginInfo.codecType = "M4AAC" := by
  obtain ⟨s1, h1, h2, _⟩ :=
    registerBuiltInPlugin_getPlugin AjmPluginLoader.fresh decoderA rfl (by decide)
  exact ⟨s1, h1, h2, rfl⟩

/-! ## C3: what a failed dynamic load leaves behind -/

/-- C3: with the mutex free, `loadDynamicPlugin` returns false and hands back the loader it was
given when the module does not open, when it opens but one of the two entry points does not
resolve, and when the factory returns a null instance.  When the instance reports a codec
type that already has an entry, the call does not return false: after the module's
`destroyPluginInstance` and the close of the module, the local `unique_ptr` deletes the
destroyed instance a second time, and the call ends in `Outcome.doubleDelete` with no value
and no loader handed back.  Whenever the call does return false, the loader afterwards is
the loader before (same entries, instances, origins, module handles, and so the same
`getAvailablePlugins`). -/
theorem loadDynamicPlugin_failure_modes (os : DynamicLinker) (s : AjmPluginLoader)
    (pluginPath : String) (hfree : s.pluginMutex = false) :
    (os.dlopen pluginPath = 0 →
      loadDynamicPlugin os s pluginPath = .returns ⟨false, s, []⟩) ∧
    (os.dlopen pluginPath ≠ 0 →
      (os.createPluginInstance (os.dlopen pluginPath) = none ∨
        os.destroyPluginInstance (os.dlopen pluginPath) = false) →
      loadDynamicPlugin os s pluginPath =
        .returns ⟨false, s, [Event.closeLibrary (os.dlopen pluginPath)]⟩) ∧
    (∀ createFunc : CreatePluginInstanceFunc, os.dlopen pluginPath ≠ 0 →
      os.createPluginInstance (os.dlopen pluginPath) = some createFunc →
      os.destroyPluginInstance (os.dlopen pluginPath) = true →
      createFunc () = none →
      loadDynamicPlugin os s pluginPath =
        .returns ⟨false, s, [Event.createFunc (os.dlopen pluginPath),
          Event.closeLibrary (os.dlopen pluginPath)]⟩) ∧
    (∀ (createFunc : CreatePluginInstanceFunc) (p : IAudioPlugin), os.dlopen pluginPath ≠ 0 →
      os.createPluginInstance (os.dlopen pluginPath) = some createFunc →
      os.destroyPluginInstance (os.dlopen pluginPath) = true →
      createFunc () = some p →
      (PluginMap.find s.plugins p.getPluginInfo.codecType).isSome →
      loadDynamicPlugin os s pluginPath =
        .doubleDelete [Event.createFunc (os.dlopen pluginPath), Event.destroyFunc p.addr,
          Event.closeLibrary (os.dlopen pluginPath), Event.deleteInstance p.addr] ∧
      (loadDynamicPlugin os s pluginPath).value? = none ∧
      (loadDynamicPlugin os s pluginPath).loader? = none) ∧
    (∀ r : Ret Bool, loadDynamicPlugin os s pluginPath = .returns r → r.value = false →
      r.loader = s ∧ getAvailablePlugins r.loader = getAvailablePlugins s) := by
  rw [loadDynamicPlugin_free os s pluginPath hfree]
  refine ⟨?_, ?_, ?_, ?_, ?_⟩
  · intro h0
    simp [h0]
  · intro h0 hsym
    rcases hsym with hc | hd
    · simp [h0, hc, unloadLibrary]
    · cases hc : os.createPluginInstance (os.dlopen pluginPath) <;>
        simp [h0, hd, unloadLibrary]
  · intro createFunc h0 hc hd hnull
    simp [h0, hc, hd, hnull, unloadLibrary]
  · intro createFunc p h0 hc hd hp hdup
    simp [h0, hc, hd, hp, hdup, unloadLibrary, Outcome.value?, Outcome.loader?]
  · intro r hr hfalse
    by_cases h0 : os.dlopen pluginPath = 0
    · simp only [h0, if_true, Outcome.returns.injEq] at hr
      rw [← hr]
      exact ⟨rfl, rfl⟩
    · simp only [h0, if_false] at hr
      cases hc : os.createPluginInstance (os.dlopen pluginPath) with
      | none =>
        simp only [hc, Outcome.returns.injEq] at hr
        rw [← hr]
        exact ⟨rfl, rfl⟩
      | some createFunc =>
        cases hd : os.destroyPluginInstance (os.dlopen pluginPath) with
        | false =>
          simp only [hc, hd, Outcome.returns.injEq] at hr
          rw [← hr]
          exact ⟨rfl, rfl⟩
        | true =>
          simp only [hc, hd] at hr
          cases hp : createFunc () with
          | none =>
            simp only [hp, Outcome.returns.injEq] at hr
            rw [← hr]
            exact ⟨rfl, rfl⟩
          | some p =>
            simp only [hp] at hr
            by_cases hdup : (PluginMap.find s.plugins p.getPluginInfo.codecType).isSome
            · simp only [hdup, if_true] at hr
              cases hr
            · simp only [hdup, Bool.false_eq_true, if_false, Outcome.returns.injEq] at hr
              rw [← hr] at hfalse
              simp at hfalse

/-- C3 at concrete inputs: on the loader holding "M4AAC" and "OPUS", loading a path that does
not open, a module lacking an entry point and a module whose factory returns null return
false with the loader unchanged; loading a module whose instance reports the registered
"OPUS" ends in the second deletion of the instance at address 3 and returns nothing. -/
theorem loadDynamicPlugin_failure_modes_witness :
    loadDynamicPlugin linkerDemo loaderAOpus "missing.module" =
      .returns ⟨false, loaderAOpus, []⟩ ∧
    loadDynamicPlugin linkerDemo loaderAOpus "nosym.so" =
      .returns ⟨false, loaderAOpus, [Event.closeLibrary 10]⟩ ∧
    loadDynamicPlugin linkerDemo loaderAOpus "null.so" =
      .returns ⟨false, loaderAOpus, [Event.createFunc 11, Event.closeLibrary 11]⟩ ∧
    loadDynamicPlugin linkerDemo loaderAOpus "opus.so" =
      .doubleDelete [Event.createFunc 9, Event.destroyFunc 3, Event.closeLibrary 9,
        Event.deleteInstance 3] ∧
    (loadDynamicPlugin linkerDemo loaderAOpus "opus.so").value? = none :=
  ⟨(loadDynamicPlugin_failure_modes linkerDemo loaderAOpus "missing.module" rfl).1
      (by decide),
   (loadDynamicPlugin_failure_modes linkerDemo loaderAOpus "nosym.so" rfl).2.1
      (by decide) (Or.inl (by decide)),
   (loadDynamicPlugin_failure_modes linkerDemo loaderAOpus "null.so" rfl).2.2.1
      (fun _ => none) (by decide) (by decide) (by decide) rfl,
   ((loadDynamicPlugin_failure_modes linkerDemo loaderAOpus "opus.so" rfl).2.2.2.1
      (fun _ => some decoderOpus) decoderOpus (by decide) (by decide) (by decide) rfl
      (by decide)).1,
   ((loadDynamicPlugin_failure_modes linkerDemo loaderAOpus "opus.so" rfl).2.2.2.1
      (fun _ => some decoderOpus) decoderOpus (by decide) (by decide) (by decide) rfl
      (by decide)).2.1⟩

/-! ## C4: unloading an absent or built-in entry -/

/-- C4: with the mutex free, `unloadDynamicPlugin f` for an `f` that has no entry, or whose
entry is built-in, returns with the loader it was given and makes no external call (no
instance shutdown, no module close); so the number of entries, `getAvailablePlugins` and
`getPlugin g` for every `g` are the same before and after. -/
theorem unloadDynamicPlugin_noop (s : AjmPluginLoader) (f : String)
    (hfree : s.pluginMutex = false)
    (hf : PluginMap.find s.plugins f = none ∨
      ∃ entry, PluginMap.find s.plugins f = some entry ∧ entry.isBuiltIn = true) :
    unloadDynamicPlugin s f = .returns ⟨(), s, []⟩ ∧
    ∃ r : Ret Unit, unloadDynamicPlugin s f = .returns r ∧ r.events = [] ∧
      r.loader.plugins.length = s.plugins.length ∧
      getAvailablePlugins r.loader = getAvailablePlugins s ∧
      ∀ g : String, getPlugin r.loader g = getPlugin s g := by
  have h : unloadDynamicPlugin s f = .returns ⟨(), s, []⟩ := by
    rw [unloadDynamicPlugin_free s f hfree]
    rcases hf with hnone | ⟨entry, hsome, hb⟩
    · simp [hnone]
    · simp [hsome, hb]
  exact ⟨h, ⟨(), s, []⟩, h, rfl, rfl, rfl, fun _ => rfl⟩

/-- C4 at concrete inputs: unloading the built-in "M4AAC" entry of `loaderAOpus` changes
nothing and makes no external call. -/
theorem unloadDynamicPlugin_noop_witness :
    unloadDynamicPlugin loaderAOpus "M4AAC" = .returns ⟨(), loaderAOpus, []⟩ :=
  (unloadDynamicPlugin_noop loaderAOpus "M4AAC" rfl
    (Or.inr ⟨⟨some decoderA, M4aacAudioPlugin.getPluginInfo, true, 0⟩, by decide, rfl⟩)).1

/-! ## C5: what `shutdownPlugins` leaves behind -/

/-- C5, as stated, fails: the loader `loaderA` is what `registerBuiltInPlugin` makes of the fresh
loader and `decoderA` before any `initializePlugins`; it is not initialized, and
`shutdownPlugins` returns at its `if (!initialized) return;` with the entry still there. -/
theorem shutdownPlugins_keeps_entries_counterexample :
    registerBuiltInPlugin AjmPluginLoader.fresh (some decoderA) =
      .returns ⟨true, loaderA, []⟩ ∧
    loaderA.initialized = false ∧
    shutdownPlugins loaderA = .returns ⟨(), loaderA, []⟩ ∧
    loaderA.plugins.length = 1 ∧
    ¬ (∀ s : AjmPluginLoader, s.pluginMutex = false →
        ∃ r : Ret Unit, shutdownPlugins s = .returns r ∧
          r.loader.plugins = [] ∧ r.loader.initialized = false) := by
  refine ⟨by decide, rfl, by decide, rfl, ?_⟩
  intro h
  obtain ⟨r, hr, hp, _⟩ := h loaderA rfl
  have h2 : shutdownPlugins loaderA = .returns ⟨(), loaderA, []⟩ := by decide
  rw [h2] at hr
  cases hr
  exact absurd hp (by decide)

/-- C5, amended: with the mutex free, `shutdownPlugins` returns and leaves `initialized = false`.
If the loader was initialized, it has no entries afterwards and every entry was torn down;
if it was not initialized, the call does nothing: the loader, entries included, is left as
it was. -/
theorem shutdownPlugins_end_state (s : AjmPluginLoader) (hfree : s.pluginMutex = false) :
    ∃ r : Ret Unit, shutdownPlugins s = .returns r ∧
      r.loader.initialized = false ∧ r.loader.pluginMutex = false ∧
      (s.initialized = true → r.loader.plugins = [] ∧
        r.events = s.plugins.flatMap (fun pair => shutdownEntry pair.2)) ∧
      (s.initialized = false → r.loader = s ∧ r.events = []) := by
  rw [shutdownPlugins_free s hfree]
  cases hi : s.initialized with
  | true =>
    simp only [if_true]
    exact ⟨_, rfl, rfl, hfree, fun _ => ⟨rfl, rfl⟩, fun h => by simp at h⟩
  | false =>
    simp only [Bool.false_eq_true, if_false]
    exact ⟨_, rfl, hi, hfree, fun h => by simp at h, fun _ => ⟨rfl, rfl⟩⟩

/-- C5, amended, at concrete inputs: shutting down the initialized `loaderAOpus` empties it;
shutting down the uninitialized `loaderA` leaves its entry. -/
theorem shutdownPlugins_end_state_witness :
    (∃ r : Ret Unit, shutdownPlugins loaderAOpus = .returns r ∧
      r.loader.initialized = false ∧ r.loader.plugins = []) ∧
    (∃ r : Ret Unit, shutdownPlugins loaderA = .returns r ∧
      r.loader.initialized = false ∧ r.loader = loaderA) := by
  constructor
  · obtain ⟨r, h1, h2, _, h3, _⟩ := shutdownPlugins_end_state loaderAOpus rfl
    exact ⟨r, h1, h2, (h3 rfl).1⟩
  · obtain ⟨r, h1, h2, _, _, h3⟩ := shutdownPlugins_end_state loaderA rfl
    exact ⟨r, h1, h2, (h3 rfl).1⟩

/-! ## C6: `shutdownPlugins` twice -/

/-- C6: with the mutex free, `shutdownPlugins` returns, and calling it again on the loader it
left returns that same loader and makes no external call (no instance shutdown, no module
close). -/
theorem shutdownPlugins_idempotent (s : AjmPluginLoader) (hfree : s.pluginMutex = false) :
    ∃ r : Ret Unit, shutdownPlugins s = .returns r ∧
      shutdownPlugins r.loader = .returns ⟨(), r.loader, []⟩ := by
  rw [shutdownPlugins_free s hfree]
  cases hi : s.initialized with
  | true =>
    simp only [if_true]
    refine ⟨_, rfl, ?_⟩
    have h2 := shutdownPlugins_free { s with plugins := [], initialized := false } hfree
    simpa using h2
  | false =>
    simp only [Bool.false_eq_true, if_false]
    refine ⟨_, rfl, ?_⟩
    have h2 := shutdownPlugins_free s hfree
    simpa [hi] using h2

/-- C6 at a concrete input: the second shutdown of `loaderAOpus` is a no-op. -/
theorem shutdownPlugins_idempotent_witness :
    ∃ r : Ret Unit, shutdownPlugins loaderAOpus = .returns r ∧
      shutdownPlugins r.loader = .returns ⟨(), r.loader, []⟩ :=
  shutdownPlugins_idempotent loaderAOpus rfl

/-! ## C7: `initializePlugins` on a fresh loader -/

/-- C7: on the fresh loader `initializePlugins` does not return.  It takes `pluginMutex`, calls
`registerBuiltInPlugins`, and the nested `registerBuiltInPlugin` tries to take the same
`std::mutex` again.  Called with the mutex free, `registerBuiltInPlugins` does what the
claim expects of the whole operation: it leaves exactly one entry, built-in, whose info
has codec type "M4AAC". -/
theorem initializePlugins_fresh_relock (a : Nat) :
    initializePlugins a AjmPluginLoader.fresh = Outcome.relock ∧
    (initializePlugins a AjmPluginLoader.fresh).value? = none ∧
    registerBuiltInPlugins a { AjmPluginLoader.fresh with pluginMutex := true } =
      Outcome.relock ∧
    registerBuiltInPlugins a AjmPluginLoader.fresh =
      .returns ⟨(),
        { plugins := [("M4AAC", { plugin := some ⟨a, M4aacAudioPlugin.getPluginInfo⟩,
                                  info := M4aacAudioPlugin.getPluginInfo,
                                  isBuiltIn := true, libraryHandle := 0 })],
          pluginMutex := false, initialized := false },
        [Event.builtinFactory a]⟩ := by
  refine ⟨?_, ?_, ?_, ?_⟩
  · rw [initializePlugins_free a _ rfl]
    rfl
  · rw [initializePlugins_free a _ rfl]
    rfl
  · rfl
  · rfl

/-! ## C8: mutations while `initialized = false` -/

/-- C8, as stated, fails: on loaders with `initialized = false`, `registerBuiltInPlugin` adds an
entry, `loadDynamicPlugin` adds an entry and `unloadDynamicPlugin` removes one. -/
theorem uninitialized_mutation_counterexample :
    AjmPluginLoader.fresh.initialized = false ∧
    registerBuiltInPlugin AjmPluginLoader.fresh (some decoderA) =
      .returns ⟨true, loaderA, []⟩ ∧
    loaderA.plugins ≠ AjmPluginLoader.fresh.plugins ∧
    loaderA.initialized = false ∧
    loadDynamicPlugin linkerDemo loaderA "opus.so" =
      .returns ⟨true, loaderCold, [Event.createFunc 9]⟩ ∧
    loaderCold.plugins ≠ loaderA.plugins ∧
    loaderCold.initialized = false ∧
    unloadDynamicPlugin loaderCold "OPUS" =
      .returns ⟨(), loaderA,
        [Event.pluginShutdown 3, Event.deleteInstance 3, Event.closeLibrary 9]⟩ := by
  decide

/-- C8, amended: `registerBuiltInPlugin`, `loadDynamicPlugin` and `unloadDynamicPlugin` never look
at the `initialized` flag.  With the mutex free and `initialized = false`,
`registerBuiltInPlugin` and `unloadDynamicPlugin` return, and `loadDynamicPlugin` returns
whenever the instance its module produces does not report a registered codec type.  Each
call that returns leaves the flag false, and returns the same value, makes the same external
calls and produces the same entries as on the loader that differs only in having
`initialized = true`.  The entries are left as they were when `registerBuiltInPlugin` or
`loadDynamicPlugin` returns false, and when `unloadDynamicPlugin` names a codec type that
is absent or built-in; a `registerBuiltInPlugin` or `loadDynamicPlugin` that returns true
adds exactly its entry, and `unloadDynamicPlugin` of a dynamic entry removes that entry. -/
theorem uninitialized_operations (os : DynamicLinker) (s : AjmPluginLoader)
    (plugin : Option IAudioPlugin) (pluginPath codecType : String)
    (hfree : s.pluginMutex = false) (hinit : s.initialized = false) :
    (∃ r : Ret Bool, registerBuiltInPlugin s plugin = .returns r ∧
      r.loader.initialized = false ∧
      (r.value = false → r.loader.plugins = s.plugins) ∧
      (r.value = true → ∃ p : IAudioPlugin, plugin = some p ∧
        r.loader.plugins = s.plugins ++ [(p.getPluginInfo.codecType,
          { plugin := some p, info := p.getPluginInfo, isBuiltIn := true,
            libraryHandle := 0 })]) ∧
      registerBuiltInPlugin { s with initialized := true } plugin =
        .returns ⟨r.value, { r.loader with initialized := true }, r.events⟩) ∧
    ((∀ (createFunc : CreatePluginInstanceFunc) (p : IAudioPlugin),
        os.createPluginInstance (os.dlopen pluginPath) = some createFunc →
        createFunc () = some p →
        PluginMap.find s.plugins p.getPluginInfo.codecType = none) →
      ∃ r : Ret Bool, loadDynamicPlugin os s pluginPath = .returns r) ∧
    (∀ r : Ret Bool, loadDynamicPlugin os s pluginPath = .returns r →
      r.loader.initialized = false ∧
      (r.value = false → r.loader.plugins = s.plugins) ∧
      (r.value = true → ∃ (createFunc : CreatePluginInstanceFunc) (p : IAudioPlugin),
        os.createPluginInstance (os.dlopen pluginPath) = some createFunc ∧
        createFunc () = some p ∧
        r.loader.plugins = s.plugins ++ [(p.getPluginInfo.codecType,
          { plugin := some p, info := p.getPluginInfo, isBuiltIn := false,
            libraryHandle := os.dlopen pluginPath })]) ∧
      loadDynamicPlugin os { s with initialized := true } pluginPath =
        .returns ⟨r.value, { r.loader with initialized := true }, r.events⟩) ∧
    (∃ r : Ret Unit, unloadDynamicPlugin s codecType = .returns r ∧
      r.loader.initialized = false ∧
      ((PluginMap.find s.plugins codecType = none ∨
          ∃ entry, PluginMap.find s.plugins codecType = some entry ∧ entry.isBuiltIn = true) →
        r.loader.plugins = s.plugins) ∧
      (∀ entry : PluginEntry, PluginMap.find s.plugins codecType = some entry →
        entry.isBuiltIn = false →
        r.loader.plugins = PluginMap.erase s.plugins codecType ∧
        r.loader.plugins.length + 1 = s.plugins.length) ∧
      unloadDynamicPlugin { s with initialized := true } codecType =
        .returns ⟨(), { r.loader with initialized := true }, r.events⟩) := by
  have hfree1 : ({ s with initialized := true } : AjmPluginLoader).pluginMutex = false := hfree
  refine ⟨?_, ?_, ?_, ?_⟩
  · cases plugin with
    | none => exact ⟨⟨false, s, []⟩, rfl, hinit, fun _ => rfl, fun h => by simp at h, rfl⟩
    | some p =>
      rw [registerBuiltInPlugin_free s p hfree, registerBuiltInPlugin_free _ p hfree1]
      by_cases hdup : (PluginMap.find s.plugins p.getPluginInfo.codecType).isSome
      · simp only [hdup, if_true]
        exact ⟨_, rfl, hinit, fun _ => rfl, fun h => by simp at h, rfl⟩
      · have hnone : PluginMap.find s.plugins p.getPluginInfo.codecType = none := by
          simpa using hdup
        simp only [hdup, Bool.false_eq_true, if_false]
        exact ⟨_, rfl, hinit, fun h => by simp at h,
          fun _ => ⟨p, rfl, PluginMap.assign_of_find_none _ _ _ hnone⟩, rfl⟩
  · intro hnodup
    rw [loadDynamicPlugin_free os s pluginPath hfree]
    by_cases h0 : os.dlopen pluginPath = 0
    · simp only [h0, if_true]
      exact ⟨_, rfl⟩
    · simp only [h0, if_false]
      cases hc : os.createPluginInstance (os.dlopen pluginPath) with
      | none => exact ⟨_, rfl⟩
      | some createFunc =>
        cases hd : os.destroyPluginInstance (os.dlopen pluginPath) with
        | false => exact ⟨_, rfl⟩
        | true =>
          cases hp : createFunc () with
          | none =>
            simp only [hp]
            exact ⟨_, rfl⟩
          | some p =>
            simp only [hp, hnodup createFunc p hc hp, Option.isSome_none, Bool.false_eq_true,
              if_false]
            exact ⟨_, rfl⟩
  · intro r hr
    rw [loadDynamicPlugin_free os s pluginPath hfree] at hr
    rw [loadDynamicPlugin_free os _ pluginPath hfree1]
    by_cases h0 : os.dlopen pluginPath = 0
    · simp only [h0, if_true, Outcome.returns.injEq] at hr ⊢
      subst hr
      exact ⟨hinit, fun _ => rfl, fun h => by simp at h, rfl⟩
    · simp only [h0, if_false] at hr ⊢
      cases hc : os.createPluginInstance (os.dlopen pluginPath) with
      | none =>
        simp only [hc, Outcome.returns.injEq] at hr ⊢
        subst hr
        exact ⟨hinit, fun _ => rfl, fun h => by simp at h, rfl⟩
      | some createFunc =>
        cases hd : os.destroyPluginInstance (os.dlopen pluginPath) with
        | false =>
          simp only [hc, hd, Outcome.returns.injEq] at hr ⊢
          subst hr
          exact ⟨hinit, fun _ => rfl, fun h => by simp at h, rfl⟩
        | true =>
          simp only [hc, hd] at hr ⊢
          cases hp : createFunc () with
          | none =>
            simp only [hp, Outcome.returns.injEq] at hr ⊢
            subst hr
            exact ⟨hinit, fun _ => rfl, fun h => by simp at h, rfl⟩
          | some p =>
            simp only [hp] at hr ⊢
            by_cases hdup : (PluginMap.find s.plugins p.getPluginInfo.codecType).isSome
            · simp only [hdup, if_true] at hr
              cases hr
            · have hnone : PluginMap.find s.plugins p.getPluginInfo.codecType = none := by
                simpa using hdup
              simp only [hdup, Bool.false_eq_true, if_false, Outcome.returns.injEq] at hr ⊢
              subst hr
              exact ⟨hinit, fun h => by simp at h,
                fun _ => ⟨createFunc, p, rfl, hp, PluginMap.assign_of_find_none _ _ _ hnone⟩,
                rfl⟩
  · rw [unloadDynamicPlugin_free s codecType hfree,
      unloadDynamicPlugin_free _ codecType hfree1]
    cases hf : PluginMap.find s.plugins codecType with
    | none =>
      exact ⟨_, rfl, hinit, fun _ => rfl, fun entry he => by simp at he, rfl⟩
    | some entry =>
      cases hb : entry.isBuiltIn with
      | true =>
        simp only [hb, if_true]
        refine ⟨_, rfl, hinit, fun _ => rfl, ?_, rfl⟩
        intro e he heb
        simp only [Option.some.injEq] at he
        rw [← he, hb] at heb
        simp at heb
      | false =>
        simp only [hb, Bool.false_eq_true, if_false]
        refine ⟨_, rfl, hinit, ?_, ?_, rfl⟩
        · intro h
          rcases h with h | ⟨e, he, heb⟩
          · simp at h
          · simp only [Option.some.injEq] at he
            rw [← he, hb] at heb
            simp at heb
        · intro e _ _
          exact ⟨rfl, PluginMap.length_erase _ _ _ hf⟩

/-- C8, amended, at concrete inputs: on the uninitialized `loaderA`, registering `decoderOpus`
returns true and adds its entry, loading "opus.so" returns true and adds the dynamic "OPUS"
entry, and unloading the built-in "M4AAC" leaves the entries as they were; on the
uninitialized `loaderCold`, unloading the dynamic "OPUS" removes that entry.  The flag stays
false throughout. -/
theorem uninitialized_operations_witness :
    (∃ r : Ret Bool, registerBuiltInPlugin loaderA (some decoderOpus) = .returns r ∧
      r.loader.initialized = false ∧
      r.loader.plugins = loaderA.plugins ++ [("OPUS",
        { plugin := some decoderOpus, info := decoderOpus.pluginInfo, isBuiltIn := true,
          libraryHandle := 0 })]) ∧
    (∃ r : Ret Bool, loadDynamicPlugin linkerDemo loaderA "opus.so" = .returns r ∧
      r.loader.initialized = false ∧ r.loader.plugins = loaderCold.plugins) ∧
    (∃ r : Ret Unit, unloadDynamicPlugin loaderA "M4AAC" = .returns r ∧
      r.loader.initialized = false ∧ r.loader.plugins = loaderA.plugins) ∧
    (∃ r : Ret Unit, unloadDynamicPlugin loaderCold "OPUS" = .returns r ∧
      r.loader.initialized = false ∧ r.loader.plugins = loaderA.plugins) := by
  obtain ⟨⟨r1, h1, h2, _, h3, _⟩, _, hload, ⟨r3, h6, h7, h8, _⟩⟩ :=
    uninitialized_operations linkerDemo loaderA (some decoderOpus) "opus.so" "M4AAC" rfl rfl
  obtain ⟨_, _, _, ⟨r4, h9, h10, _, h11, _⟩⟩ :=
    uninitialized_operations linkerDemo loaderCold none "missing.module" "OPUS" rfl rfl
  have hreg : registerBuiltInPlugin loaderA (some decoderOpus) =
      .returns ⟨true, { loaderA with plugins := loaderA.plugins ++ [("OPUS",
        { plugin := some decoderOpus, info := decoderOpus.pluginInfo, isBuiltIn := true,
          libraryHandle := 0 })] }, []⟩ := by decide
  have hl : loadDynamicPlugin linkerDemo loaderA "opus.so" =
      .returns ⟨true, loaderCold, [Event.createFunc 9]⟩ := by decide
  refine ⟨⟨r1, h1, h2, ?_⟩, ⟨_, hl, (hload _ hl).1, rfl⟩, ⟨r3, h6, h7, h8 ?_⟩,
    ⟨r4, h9, h10, ?_⟩⟩
  · rw [hreg] at h1
    cases h1
    rfl
  · exact Or.inr ⟨⟨some decoderA, M4aacAudioPlugin.getPluginInfo, true, 0⟩, by decide, rfl⟩
  · rw [(h11 ⟨some decoderOpus, decoderOpus.pluginInfo, false, 9⟩ (by decide) rfl).1]
    decide

/-! ## C9: a codec type appears at most once -/

/-- C9: in every reachable loader no key of the map occurs twice, every element is stored under
the codec type recorded in its info, and `getAvailablePlugins` returns a list in which no
two infos have the same codec type. -/
theorem reachable_codecType_unique (s : AjmPluginLoader) (h : Reachable s) :
    (s.plugins.map Prod.fst).Nodup ∧
    (∀ pair ∈ s.plugins, pair.2.info.codecType = pair.1) ∧
    ∃ infos : List PluginInfo, getAvailablePlugins s = .returns ⟨infos, s, []⟩ ∧
      (infos.map PluginInfo.codecType).Nodup := by
  obtain ⟨hfree, hnodup, hall⟩ := wellFormed_of_reachable s h
  refine ⟨hnodup, fun pair hmem => (hall pair hmem).1, _, getAvailablePlugins_free s hfree, ?_⟩
  have hmap : (s.plugins.map (fun pair => pair.2.info)).map PluginInfo.codecType =
      s.plugins.map Prod.fst := by
    rw [List.map_map]
    exact List.map_congr_left (fun pair hmem => (hall pair hmem).1)
  rw [hmap]
  exact hnodup

/-- C9 at a concrete input: `loaderCold`, reached by registering `decoderA` and loading
"opus.so", lists two infos with distinct codec types. -/
theorem reachable_codecType_unique_witness :
    Reachable loaderCold ∧
    ∃ infos : List PluginInfo, getAvailablePlugins loaderCold = .returns ⟨infos, loaderCold, []⟩ ∧
      (infos.map PluginInfo.codecType).Nodup :=
  ⟨reachable_loaderCold, (reachable_codecType_unique loaderCold reachable_loaderCold).2.2⟩

/-! ## C10: module handle present exactly for dynamic entries -/

/-- C10: in every reachable loader, each entry has a non-null module handle if and only if it is
not built-in; this holds of every element of the map and so of every entry a lookup
finds. -/
theorem reachable_handle_iff_dynamic (s : AjmPluginLoader) (h : Reachable s) :
    (∀ pair ∈ s.plugins, (pair.2.libraryHandle ≠ 0 ↔ pair.2.isBuiltIn = false)) ∧
    (∀ (key : String) (entry : PluginEntry), PluginMap.find s.plugins key = some entry →
      (entry.libraryHandle ≠ 0 ↔ entry.isBuiltIn = false)) := by
  obtain ⟨_, _, hall⟩ := wellFormed_of_reachable s h
  exact ⟨fun pair hmem => (hall pair hmem).2.1,
    fun key entry hf => (hall (key, entry) (PluginMap.mem_of_find _ _ _ hf)).2.1⟩

/-- C10 at a concrete input: in the reachable `loaderCold` the built-in "M4AAC" entry has the null
handle and the dynamic "OPUS" entry has handle 9. -/
theorem reachable_handle_iff_dynamic_witness :
    Reachable loaderCold ∧
    (∀ pair ∈ loaderCold.plugins, (pair.2.libraryHandle ≠ 0 ↔ pair.2.isBuiltIn = false)) :=
  ⟨reachable_loaderCold, (reachable_handle_iff_dynamic loaderCold reachable_loaderCold).1⟩

/-! ## Lookups under another codec type are not affected -/

theorem registerBuiltInPlugin_find_ne (s : AjmPluginLoader) (plugin : Option IAudioPlugin)
    (r : Ret Bool) (f : String) (hfree : s.pluginMutex = false)
    (hne : ∀ p, plugin = some p → p.getPluginInfo.codecType ≠ f)
    (h : registerBuiltInPlugin s plugin = .returns r) :
    r.loader.pluginMutex = false ∧
      PluginMap.find r.loader.plugins f = PluginMap.find s.plugins f := by
  cases plugin with
  | none =>
    simp only [registerBuiltInPlugin, Outcome.returns.injEq] at h
    rw [← h]
    exact ⟨hfree, rfl⟩
  | some p =>
    rw [registerBuiltInPlugin_free s p hfree] at h
    by_cases hdup : (PluginMap.find s.plugins p.getPluginInfo.codecType).isSome
    · simp only [hdup, if_true, Outcome.returns.injEq] at h
      rw [← h]
      exact ⟨hfree, rfl⟩
    · simp only [hdup, Bool.false_eq_true, if_false, Outcome.returns.injEq] at h
      rw [← h]
      exact ⟨hfree, PluginMap.find_assign_ne _ _ _ _ (Ne.symm (hne p rfl))⟩

theorem loadDynamicPlugin_find_ne (os : DynamicLinker) (s : AjmPluginLoader)
    (pluginPath : String) (r : Ret Bool) (f : String) (hfree : s.pluginMutex = false)
    (hne : ∀ (createFunc : CreatePluginInstanceFunc) (p : IAudioPlugin),
      os.createPluginInstance (os.dlopen pluginPath) = some createFunc →
      createFunc () = some p → p.getPluginInfo.codecType ≠ f)
    (h : loadDynamicPlugin os s pluginPath = .returns r) :
    r.loader.pluginMutex = false ∧
      PluginMap.find r.loader.plugins f = PluginMap.find s.plugins f := by
  rw [loadDynamicPlugin_free os s pluginPath hfree] at h
  by_cases h0 : os.dlopen pluginPath = 0
  · simp only [h0, if_true, Outcome.returns.injEq] at h
    rw [← h]
    exact ⟨hfree, rfl⟩
  · simp only [h0, if_false] at h
    cases hc : os.createPluginInstance (os.dlopen pluginPath) with
    | none =>
      simp only [hc, Outcome.returns.injEq] at h
      rw [← h]
      exact ⟨hfree, rfl⟩
    | some createFunc =>
      cases hd : os.destroyPluginInstance (os.dlopen pluginPath) with
      | false =>
        simp only [hc, hd, Outcome.returns.injEq] at h
        rw [← h]
        exact ⟨hfree, rfl⟩
      | true =>
        simp only [hc, hd] at h
        cases hp : createFunc () with
        | none =>
          simp only [hp, Outcome.returns.injEq] at h
          rw [← h]
          exact ⟨hfree, rfl⟩
        | some p =>
          simp only [hp] at h
          by_cases hdup : (PluginMap.find s.plugins p.getPluginInfo.codecType).isSome
          · simp only [hdup, if_true] at h
            cases h
          · simp only [hdup, Bool.false_eq_true, if_false, Outcome.returns.injEq] at h
            rw [← h]
            exact ⟨hfree, PluginMap.find_assign_ne _ _ _ _ (Ne.symm (hne createFunc p hc hp))⟩

theorem unloadDynamicPlugin_find_ne (s : AjmPluginLoader) (g : String) (r : Ret Unit)
    (f : String) (hfree : s.pluginMutex = false) (hne : g ≠ f)
    (h : unloadDynamicPlugin s g = .returns r) :
    r.loader.pluginMutex = false ∧
      PluginMap.find r.loader.plugins f = PluginMap.find s.plugins f := by
  rw [unloadDynamicPlugin_free s g hfree] at h
  cases hf : PluginMap.find s.plugins g with
  | none =>
    simp only [hf, Outcome.returns.injEq] at h
    rw [← h]
    exact ⟨hfree, rfl⟩
  | some entry =>
    simp only [hf] at h
    cases hb : entry.isBuiltIn with
    | true =>
      simp only [hb, if_true, Outcome.returns.injEq] at h
      rw [← h]
      exact ⟨hfree, rfl⟩
    | false =>
      simp only [hb, Bool.false_eq_true, if_false, Outcome.returns.injEq] at h
      rw [← h]
      exact ⟨hfree, PluginMap.find_erase_ne _ _ _ (Ne.symm hne)⟩

theorem getPlugin_value_of_find (s t : AjmPluginLoader) (f : String)
    (hs : s.pluginMutex = false) (ht : t.pluginMutex = false)
    (h : PluginMap.find t.plugins f = PluginMap.find s.plugins f) :
    (getPlugin t f).value? = (getPlugin s f).value? := by
  rw [getPlugin_free t f ht, getPlugin_free s f hs]
  simp [Outcome.value?, h]

/-! ## C11: what `getPlugin` returns -/

/-- C11: in every reachable loader and for every codec type `f`, `getPlugin f` returns, leaves the
loader as it is, and yields null exactly when `f` has no entry; when `f` has an entry it
yields that entry's instance, which is not null.  A `registerBuiltInPlugin`, a
`loadDynamicPlugin` or an `unloadDynamicPlugin` that concerns a codec type other than `f`
does not change what `getPlugin f` yields. -/
theorem reachable_getPlugin (s : AjmPluginLoader) (f : String) (h : Reachable s) :
    (∃ v : Option IAudioPlugin, getPlugin s f = .returns ⟨v, s, []⟩ ∧
      (v = none ↔ PluginMap.find s.plugins f = none) ∧
      (∀ entry : PluginEntry, PluginMap.find s.plugins f = some entry →
        ∃ p : IAudioPlugin, entry.plugin = some p ∧ v = some p)) ∧
    (∀ (plugin : Option IAudioPlugin) (r : Ret Bool),
      (∀ p, plugin = some p → p.getPluginInfo.codecType ≠ f) →
      registerBuiltInPlugin s plugin = .returns r →
      (getPlugin r.loader f).value? = (getPlugin s f).value?) ∧
    (∀ (os : DynamicLinker) (pluginPath : String) (r : Ret Bool),
      (∀ (createFunc : CreatePluginInstanceFunc) (p : IAudioPlugin),
        os.createPluginInstance (os.dlopen pluginPath) = some createFunc →
        createFunc () = some p → p.getPluginInfo.codecType ≠ f) →
      loadDynamicPlugin os s pluginPath = .returns r →
      (getPlugin r.loader f).value? = (getPlugin s f).value?) ∧
    (∀ (g : String) (r : Ret Unit), g ≠ f →
      unloadDynamicPlugin s g = .returns r →
      (getPlugin r.loader f).value? = (getPlugin s f).value?) := by
  obtain ⟨hfree, _, hall⟩ := wellFormed_of_reachable s h
  refine ⟨?_, ?_, ?_, ?_⟩
  · refine ⟨_, getPlugin_free s f hfree, ?_, ?_⟩
    · cases hf : PluginMap.find s.plugins f with
      | none => simp
      | some entry =>
        obtain ⟨p, hp, _⟩ := (hall (f, entry) (PluginMap.mem_of_find _ _ _ hf)).2.2
        simp only at hp
        simp [hp]
    · intro entry hf
      obtain ⟨p, hp, _⟩ := (hall (f, entry) (PluginMap.mem_of_find _ _ _ hf)).2.2
      simp only at hp
      exact ⟨p, hp, by simp [hf, hp]⟩
  · intro plugin r hne hr
    obtain ⟨h1, h2⟩ := registerBuiltInPlugin_find_ne s plugin r f hfree hne hr
    exact getPlugin_value_of_find s r.loader f hfree h1 h2
  · intro os pluginPath r hne hr
    obtain ⟨h1, h2⟩ := loadDynamicPlugin_find_ne os s pluginPath r f hfree hne hr
    exact getPlugin_value_of_find s r.loader f hfree h1 h2
  · intro g r hne hr
    obtain ⟨h1, h2⟩ := unloadDynamicPlugin_find_ne s g r f hfree hne hr
    exact getPlugin_value_of_find s r.loader f hfree h1 h2

/-- C11 at a concrete input: in the reachable `loaderCold`, `getPlugin "OPUS"` yields
`decoderOpus`, `getPlugin "AT9"` yields null, and unloading "OPUS" does not change what
`getPlugin "M4AAC"` yields. -/
theorem reachable_getPlugin_witness :
    Reachable loaderCold ∧
    getPlugin loaderCold "OPUS" = .returns ⟨some decoderOpus, loaderCold, []⟩ ∧
    getPlugin loaderCold "AT9" = .returns ⟨none, loaderCold, []⟩ ∧
    (∀ r : Ret Unit, unloadDynamicPlugin loaderCold "OPUS" = .returns r →
      (getPlugin r.loader "M4AAC").value? = (getPlugin loaderCold "M4AAC").value?) := by
  refine ⟨reachable_loaderCold, by decide, by decide, ?_⟩
  intro r hr
  exact (reachable_getPlugin loaderCold "M4AAC" reachable_loaderCold).2.2.2 "OPUS" r
    (by decide) hr

/-! ## C12: a successful dynamic load -/

/-- C12: with the mutex free, when the module at the path opens (non-null handle), both
`createPluginInstance` and `destroyPluginInstance` resolve, the factory returns a non-null
instance `p`, and the codec type `p` reports has no entry, `loadDynamicPlugin` returns true;
the map gains exactly one element, stored under that codec type, not built-in, holding the
opened handle, `p` and the info `p` reported; the entry found under every other codec type
is what it was. -/
theorem loadDynamicPlugin_success (os : DynamicLinker) (s : AjmPluginLoader)
    (pluginPath : String) (createFunc : CreatePluginInstanceFunc) (p : IAudioPlugin)
    (hfree : s.pluginMutex = false)
    (hopen : os.dlopen pluginPath ≠ 0)
    (hcreate : os.createPluginInstance (os.dlopen pluginPath) = some createFunc)
    (hdestroy : os.destroyPluginInstance (os.dlopen pluginPath) = true)
    (hinst : createFunc () = some p)
    (hnone : PluginMap.find s.plugins p.getPluginInfo.codecType = none) :
    ∃ s1 : AjmPluginLoader,
      loadDynamicPlugin os s pluginPath =
        .returns ⟨true, s1, [Event.createFunc (os.dlopen pluginPath)]⟩ ∧
      s1.plugins = s.plugins ++ [(p.getPluginInfo.codecType,
        { plugin := some p, info := p.getPluginInfo, isBuiltIn := false,
          libraryHandle := os.dlopen pluginPath })] ∧
      s1.plugins.length = s.plugins.length + 1 ∧
      PluginMap.find s1.plugins p.getPluginInfo.codecType =
        some { plugin := some p, info := p.getPluginInfo, isBuiltIn := false,
               libraryHandle := os.dlopen pluginPath } ∧
      (∀ g : String, g ≠ p.getPluginInfo.codecType →
        PluginMap.find s1.plugins g = PluginMap.find s.plugins g) ∧
      s1.initialized = s.initialized ∧ s1.pluginMutex = false := by
  refine ⟨{ s with
      plugins := PluginMap.assign s.plugins p.getPluginInfo.codecType
        ⟨some p, p.getPluginInfo, false, os.dlopen pluginPath⟩ }, ?_, ?_, ?_, ?_, ?_, rfl, hfree⟩
  · rw [loadDynamicPlugin_free os s pluginPath hfree]
    simp [hopen, hcreate, hdestroy, hinst, hnone]
  · simp [PluginMap.assign_of_find_none _ _ _ hnone]
  · simp [PluginMap.assign_of_find_none _ _ _ hnone]
  · simp [PluginMap.find_assign_self]
  · intro g hg
    simp [PluginMap.find_assign_ne _ _ _ _ hg]

/-- C12 at a concrete input: loading "opus.so" into `loaderA` returns true and leaves
`loaderCold`, whose new "OPUS" entry is dynamic and holds handle 9 and `decoderOpus`. -/
theorem loadDynamicPlugin_success_witness :
    ∃ s1 : AjmPluginLoader,
      loadDynamicPlugin linkerDemo loaderA "opus.so" =
        .returns ⟨true, s1, [Event.createFunc 9]⟩ ∧
      s1.plugins = loaderA.plugins ++ [("OPUS",
        { plugin := some decoderOpus, info := decoderOpus.pluginInfo, isBuiltIn := false,
          libraryHandle := 9 })] := by
  obtain ⟨s1, h1, h2, _⟩ :=
    loadDynamicPlugin_success linkerDemo loaderA "opus.so" (fun _ => some decoderOpus)
      decoderOpus rfl (by decide) (by decide) (by decide) rfl (by decide)
  exact ⟨s1, h1, h2⟩

/-! ## C13: unloading a dynamic entry -/

/-- C13: in a loader that satisfies the invariant of the registry (mutex free, keys unique, every
entry stored under its codec type with an instance, and a module handle exactly when
dynamic), `unloadDynamicPlugin f` for an `f` whose entry is not built-in shuts the entry's
instance down, releases it, closes the entry's module, and removes the entry: afterwards
`f` has no entry and `getPlugin f` yields null, `getAvailablePlugins` is one element shorter
and contains no info with codec type `f`, and the entry found under every other codec type
is what it was. -/
theorem unloadDynamicPlugin_removes (s : AjmPluginLoader) (f : String) (entry : PluginEntry)
    (hs : WellFormed s) (hf : PluginMap.find s.plugins f = some entry)
    (hdyn : entry.isBuiltIn = false) :
    ∃ (p : IAudioPlugin) (s1 : AjmPluginLoader),
      entry.plugin = some p ∧ entry.libraryHandle ≠ 0 ∧
      unloadDynamicPlugin s f =
        .returns ⟨(), s1, [Event.pluginShutdown p.addr, Event.deleteInstance p.addr,
          Event.closeLibrary entry.libraryHandle]⟩ ∧
      PluginMap.find s1.plugins f = none ∧
      getPlugin s1 f = .returns ⟨none, s1, []⟩ ∧
      (∃ infos : List PluginInfo, getAvailablePlugins s1 = .returns ⟨infos, s1, []⟩ ∧
        infos.length + 1 = s.plugins.length ∧
        f ∉ infos.map PluginInfo.codecType) ∧
      (∀ g : String, g ≠ f →
        PluginMap.find s1.plugins g = PluginMap.find s.plugins g) ∧
      s1.initialized = s.initialized := by
  have hs1 := wellFormed_erase s f hs
  obtain ⟨hfree, hnodup, hall⟩ := hs
  have hmem := PluginMap.mem_of_find _ _ _ hf
  obtain ⟨_, hhandle, p, hp, _⟩ := hall (f, entry) hmem
  simp only at hhandle hp
  have hh : entry.libraryHandle ≠ 0 := hhandle.2 hdyn
  have hfree1 : ({ s with plugins := PluginMap.erase s.plugins f } :
      AjmPluginLoader).pluginMutex = false := hfree
  have hgone : PluginMap.find (PluginMap.erase s.plugins f) f = none :=
    PluginMap.find_erase_self _ _ hnodup
  refine ⟨p, { s with plugins := PluginMap.erase s.plugins f }, hp, hh, ?_, hgone, ?_, ?_, ?_,
    rfl⟩
  · rw [unloadDynamicPlugin_free s f hfree]
    simp [hf, hdyn, hp, hh, unloadLibrary]
  · rw [getPlugin_free _ f hfree1]
    simp [hgone]
  · refine ⟨_, getAvailablePlugins_free _ hfree1, ?_, ?_⟩
    · simpa using PluginMap.length_erase _ _ _ hf
    · have hmap : ((PluginMap.erase s.plugins f).map (fun pair => pair.2.info)).map
          PluginInfo.codecType = (PluginMap.erase s.plugins f).map Prod.fst := by
        rw [List.map_map]
        exact List.map_congr_left (fun pair hm => (hs1.2.2 pair hm).1)
      show f ∉ ((PluginMap.erase s.plugins f).map (fun pair => pair.2.info)).map
        PluginInfo.codecType
      rw [hmap]
      exact (PluginMap.find_eq_none_iff _ _).1 hgone
  · intro g hg
    exact PluginMap.find_erase_ne _ _ _ hg

/-- C13 at a concrete input: unloading "OPUS" from `loaderAOpus` shuts down and deletes
`decoderOpus` (address 3), closes module 9, and leaves only the "M4AAC" entry. -/
theorem unloadDynamicPlugin_removes_witness :
    ∃ s1 : AjmPluginLoader,
      unloadDynamicPlugin loaderAOpus "OPUS" =
        .returns ⟨(), s1, [Event.pluginShutdown 3, Event.deleteInstance 3,
          Event.closeLibrary 9]⟩ ∧
      getPlugin s1 "OPUS" = .returns ⟨none, s1, []⟩ := by
  have hw : WellFormed loaderAOpus := by
    refine ⟨rfl, by decide, ?_⟩
    intro pair hmem
    simp only [loaderAOpus, List.mem_cons, List.mem_singleton, List.not_mem_nil, or_false]
      at hmem
    rcases hmem with h | h
    · subst h
      exact ⟨rfl, by decide, decoderA, rfl, rfl⟩
    · subst h
      exact ⟨rfl, by decide, decoderOpus, rfl, rfl⟩
  obtain ⟨p, s1, hp, _, h1, _, h2, _⟩ :=
    unloadDynamicPlugin_removes loaderAOpus "OPUS"
      ⟨some decoderOpus, decoderOpus.pluginInfo, false, 9⟩ hw (by decide) rfl
  simp only [Option.some.injEq] at hp
  subst hp
  exact ⟨s1, h1, h2⟩

/-! ## C14: `initializePlugins` on an initialized loader -/

/-- C14: with the mutex free and `initialized = true`, `initializePlugins` returns true with the
loader it was given (entries and flag unchanged) and makes no external call; in particular
the built-in factory is not invoked. -/
theorem initializePlugins_idempotent (a : Nat) (s : AjmPluginLoader)
    (hfree : s.pluginMutex = false) (hinit : s.initialized = true) :
    initializePlugins a s = .returns ⟨true, s, []⟩ ∧
    ∃ r : Ret Bool, initializePlugins a s = .returns r ∧ r.value = true ∧
      r.loader.plugins = s.plugins ∧ r.loader.initialized = true ∧
      Event.builtinFactory a ∉ r.events ∧
      initializePlugins a r.loader = .returns ⟨true, r.loader, []⟩ := by
  have h : initializePlugins a s = .returns ⟨true, s, []⟩ := by
    rw [initializePlugins_free a s hfree]
    simp [hinit]
  exact ⟨h, ⟨true, s, []⟩, h, rfl, rfl, hinit, by simp, h⟩

/-- C14 at a concrete input: `initializePlugins` on the initialized `loaderAOpus` returns true and
changes nothing. -/
theorem initializePlugins_idempotent_witness :
    initializePlugins 5 loaderAOpus = .returns ⟨true, loaderAOpus, []⟩ :=
  (initializePlugins_idempotent 5 loaderAOpus rfl rfl).1

/-! ## C15: `getAvailablePlugins` is a snapshot -/

/-- C15: with the mutex free, `getAvailablePlugins` returns, leaves the loader as it is, and
yields a list that has one element per entry: it is as long as the map and its `i`-th
element is the info recorded in the `i`-th entry.  The list is a value computed from the
entries at the time of the call; a later operation yields a new loader and cannot alter
it, whatever `getAvailablePlugins` yields on that new loader. -/
theorem getAvailablePlugins_snapshot (s : AjmPluginLoader) (hfree : s.pluginMutex = false) :
    ∃ infos : List PluginInfo,
      getAvailablePlugins s = .returns ⟨infos, s, []⟩ ∧
      infos.length = s.plugins.length ∧
      (∀ (i : Nat) (hi : i < s.plugins.length),
        infos[i]? = some (s.plugins.get ⟨i, hi⟩).2.info) ∧
      infos = s.plugins.map (fun pair => pair.2.info) := by
  refine ⟨_, getAvailablePlugins_free s hfree, by simp, ?_, rfl⟩
  intro i hi
  simp [List.getElem?_map, List.getElem?_eq_getElem hi]

/-- C15 at a concrete input: the list obtained from `loaderA` holds the one M4AAC info; after
"opus.so" is loaded the new loader lists two infos, and the earlier list is still the
one-element list. -/
theorem getAvailablePlugins_snapshot_witness :
    ∃ infos : List PluginInfo,
      getAvailablePlugins loaderA = .returns ⟨infos, loaderA, []⟩ ∧
      loadDynamicPlugin linkerDemo loaderA "opus.so" =
        .returns ⟨true, loaderCold, [Event.createFunc 9]⟩ ∧
      getAvailablePlugins loaderCold =
        .returns ⟨infos ++ [decoderOpus.pluginInfo], loaderCold, []⟩ ∧
      infos = [M4aacAudioPlugin.getPluginInfo] := by
  obtain ⟨infos, h1, _, _, h2⟩ := getAvailablePlugins_snapshot loaderA rfl
  refine ⟨infos, h1, by decide, ?_, h2⟩
  rw [h2]
  decide

/-! ## Facts about the decoder and the plugin -/

theorem OrbisAudioDecoder.initialize_result_flag (ff : InitAnswers) (codecId : Nat)
    (sampleRate channels : Int) (d : OrbisAudioDecoder) :
    ( OrbisAudioDecoder.initialize ff codecId sampleRate channels d).2.isInitialized =
      ( OrbisAudioDecoder.initialize ff codecId sampleRate channels d).1 := by
  unfold OrbisAudioDecoder.initialize
  cases hd : d.isInitialized <;>
    simp only [hd, Bool.false_eq_true, if_false, if_true] <;>
    (repeat' split) <;> simp_all [OrbisAudioDecoder.cleanup]

theorem M4aacAudioPlugin.shutdown_flag (p : M4aacAudioPlugin) :
    p.shutdown.isInitialized = false := by
  unfold M4aacAudioPlugin.shutdown
  cases h : p.isInitialized <;> simp [h]

theorem M4aacAudioPlugin.shutdown_consistent (p : M4aacAudioPlugin)
    (h : M4aacAudioPlugin.Consistent p) : M4aacAudioPlugin.Consistent p.shutdown := by
  unfold M4aacAudioPlugin.shutdown
  cases hi : p.isInitialized with
  | true => simp [M4aacAudioPlugin.Consistent]
  | false => simpa [hi] using h

theorem M4aacAudioPlugin.initialize_flag (ff : InitAnswers) (format : AudioFormat)
    (p : M4aacAudioPlugin) :
    ( M4aacAudioPlugin.initialize ff format p).2.isInitialized =
      ( M4aacAudioPlugin.initialize ff format p).1 := by
  unfold M4aacAudioPlugin.initialize
  simp only []
  split_ifs with h1 h2 h3 h4 h5 <;>
    simp_all [M4aacAudioPlugin.shutdown, M4aacAudioPlugin.updateOutputFormat]

theorem M4aacAudioPlugin.initialize_consistent (ff : InitAnswers) (format : AudioFormat)
    (p : M4aacAudioPlugin) (h : M4aacAudioPlugin.Consistent p) :
    M4aacAudioPlugin.Consistent ( M4aacAudioPlugin.initialize ff format p).2 := by
  have hs := M4aacAudioPlugin.shutdown_consistent p h
  have hsf := M4aacAudioPlugin.shutdown_flag p
  have hdec := OrbisAudioDecoder.initialize_result_flag ff AV_CODEC_ID_AAC (toInt32 format.sampleRate)
    (format.channels : Int) OrbisAudioDecoder.fresh
  unfold M4aacAudioPlugin.initialize
  simp only []
  by_cases hfmt : format.sampleRate = 0 ∨ format.channels = 0
  · simp only [hfmt, if_true]
    cases hi : p.isInitialized with
    | true => simpa [hi] using hs
    | false => simpa [hi] using h
  · simp only [hfmt, if_false]
    cases hm : ( OrbisAudioDecoder.initialize ff AV_CODEC_ID_AAC (toInt32 format.sampleRate)
        (format.channels : Int) OrbisAudioDecoder.fresh).1 with
    | false =>
      cases hi : p.isInitialized with
      | true => simp [M4aacAudioPlugin.Consistent, hsf]
      | false => simp [M4aacAudioPlugin.Consistent, hi]
    | true =>
      rw [hm] at hdec
      simp [M4aacAudioPlugin.Consistent, M4aacAudioPlugin.updateOutputFormat, hdec]

theorem M4aacAudioPlugin.consistent_of_reachable (p : M4aacAudioPlugin)
    (h : M4aacAudioPlugin.Reachable p) : M4aacAudioPlugin.Consistent p := by
  induction h with
  | fresh => simp [M4aacAudioPlugin.Consistent, M4aacAudioPlugin.fresh]
  | afterInitialize ff format _ ih => exact M4aacAudioPlugin.initialize_consistent ff format _ ih
  | afterShutdown _ ih => exact M4aacAudioPlugin.shutdown_consistent _ ih

theorem M4aacAudioPlugin.decode_of_flag_false (ff : DecodeAnswers) (p : M4aacAudioPlugin)
    (inputData : Bool) (inputSize : Nat) (outputBuffer : Bool) (outputBufferSize : Nat)
    (outputSize : Bool) (h : p.isInitialized = false) :
    M4aacAudioPlugin.decode ff p inputData inputSize outputBuffer outputBufferSize outputSize =
      ⟨.ErrorNotInitialized, none, []⟩ := by
  unfold M4aacAudioPlugin.decode
  simp [h]

theorem toInt32_of_range (x : Int) (h1 : -2 ^ 31 ≤ x) (h2 : x < 2 ^ 31) : toInt32 x = x := by
  unfold toInt32
  omega

theorem toUInt32_of_range (x : Int) (h1 : 0 ≤ x) (h2 : x < 2 ^ 32) :
    toUInt32 x = x.toNat := by
  unfold toUInt32
  congr 1
  omega

theorem reachable_pluginReady : M4aacAudioPlugin.Reachable pluginReady :=
  M4aacAudioPlugin.Reachable.afterInitialize answersGood format48k
    M4aacAudioPlugin.Reachable.fresh

/-! ## C16: `decode` on a plugin that is not initialized -/

/-- C16: whenever `isInitialized` is false, `decode` returns `ErrorNotInitialized` for every
combination of arguments (null or non-null pointers, any sizes, zero included), makes no
FFmpeg call and stores no output size.  This covers the plugin as constructed, the plugin
after `shutdown`, and the plugin after an `initialize` that returned false. -/
theorem decode_not_initialized (ff : DecodeAnswers) (ffi : InitAnswers) (format : AudioFormat)
    (p : M4aacAudioPlugin) (inputData : Bool) (inputSize : Nat) (outputBuffer : Bool)
    (outputBufferSize : Nat) (outputSize : Bool) :
    (p.isInitialized = false →
      M4aacAudioPlugin.decode ff p inputData inputSize outputBuffer outputBufferSize outputSize =
        ⟨.ErrorNotInitialized, none, []⟩) ∧
    M4aacAudioPlugin.decode ff M4aacAudioPlugin.fresh inputData inputSize outputBuffer
      outputBufferSize outputSize = ⟨.ErrorNotInitialized, none, []⟩ ∧
    M4aacAudioPlugin.decode ff p.shutdown inputData inputSize outputBuffer
      outputBufferSize outputSize = ⟨.ErrorNotInitialized, none, []⟩ ∧
    (( M4aacAudioPlugin.initialize ffi format p).1 = false →
      M4aacAudioPlugin.decode ff ( M4aacAudioPlugin.initialize ffi format p).2 inputData inputSize
        outputBuffer outputBufferSize outputSize = ⟨.ErrorNotInitialized, none, []⟩) := by
  refine ⟨M4aacAudioPlugin.decode_of_flag_false ff p _ _ _ _ _,
    M4aacAudioPlugin.decode_of_flag_false ff _ _ _ _ _ _ rfl,
    M4aacAudioPlugin.decode_of_flag_false ff _ _ _ _ _ _ (M4aacAudioPlugin.shutdown_flag p), ?_⟩
  intro hfail
  apply M4aacAudioPlugin.decode_of_flag_false
  rw [M4aacAudioPlugin.initialize_flag, hfail]

/-- C16 at concrete inputs: after `initialize` with a zero sample rate fails on the ready plugin,
and after `initialize` fails because `avcodec_open2` fails, a `decode` with valid arguments
and a `decode` with a null, zero-sized output buffer both return `ErrorNotInitialized`. -/
theorem decode_not_initialized_witness :
    M4aacAudioPlugin.decode answersFrame1024
      ( M4aacAudioPlugin.initialize answersGood formatNoRate pluginReady).2 true 16 true 8192 true =
        ⟨.ErrorNotInitialized, none, []⟩ ∧
    M4aacAudioPlugin.decode answersFrame1024
      ( M4aacAudioPlugin.initialize answersOpenFails format48k pluginReady).2 true 16 false 0 true =
        ⟨.ErrorNotInitialized, none, []⟩ :=
  ⟨(decode_not_initialized answersFrame1024 answersGood formatNoRate pluginReady true 16 true
      8192 true).2.2.2 (by decide),
   (decode_not_initialized answersFrame1024 answersOpenFails format48k pluginReady true 16 false
      0 true).2.2.2 (by decide)⟩

/-! ## C17: an output buffer that is too small -/

/-- C17, as stated, fails for the output capacity 0: on the initialized `pluginReady`, with a
non-empty input whose frame needs 1024 × 2 × 2 = 4096 bytes, `decode` with
`outputBufferSize = 0` returns `ErrorInvalidInput` at its argument check, before any FFmpeg
call, and not `ErrorInsufficientBuffer`. -/
theorem decode_zero_capacity_counterexample :
    pluginReady.isInitialized = true ∧
    ((0 : Nat) : Int) < answersFrame1024.nb_samples * answersFrame1024.channels * 2 ∧
    M4aacAudioPlugin.decode answersFrame1024 pluginReady true 16 true 0 true =
      ⟨.ErrorInvalidInput, none, []⟩ ∧
    (M4aacAudioPlugin.decode answersFrame1024 pluginReady true 16 true 0 true).result ≠
      .ErrorInsufficientBuffer := by
  decide

/-- C17, amended: for an initialized plugin (in a reachable state), a non-null input of
1 to 2^31 − 1 bytes, a non-null output buffer and output-size pointer, and an output
capacity of 1 to 2^31 − 1 bytes: if FFmpeg accepts the packet and delivers a frame whose
size `nb_samples × channels × 2` (a value that fits in `int`) exceeds the capacity,
`decode` returns `ErrorInsufficientBuffer`, stores no output size, and `swr_convert`, the
only call that writes to the output buffer, is not made.  With the capacity 0, `decode`
returns `ErrorInvalidInput` without any FFmpeg call. -/
theorem decode_insufficient_buffer (ff : DecodeAnswers) (p : M4aacAudioPlugin)
    (inputSize outputBufferSize : Nat)
    (hreach : M4aacAudioPlugin.Reachable p) (hinit : p.isInitialized = true)
    (hin : 0 < inputSize) (hin2 : inputSize < 2 ^ 31) :
    (0 < outputBufferSize → outputBufferSize < 2 ^ 31 →
      0 ≤ ff.avcodec_send_packet → 0 ≤ ff.avcodec_receive_frame →
      ff.nb_samples * ff.channels * 2 < 2 ^ 31 →
      (outputBufferSize : Int) < ff.nb_samples * ff.channels * 2 →
      M4aacAudioPlugin.decode ff p true inputSize true outputBufferSize true =
        ⟨.ErrorInsufficientBuffer, none,
          [.av_packet_unref, .avcodec_send_packet, .avcodec_receive_frame]⟩ ∧
      EngineCall.swr_convert ∉
        (M4aacAudioPlugin.decode ff p true inputSize true outputBufferSize true).calls) ∧
    M4aacAudioPlugin.decode ff p true inputSize true 0 true = ⟨.ErrorInvalidInput, none, []⟩ := by
  obtain ⟨d, hdec, hd⟩ := (M4aacAudioPlugin.consistent_of_reachable p hreach).1 hinit
  have hin0 : inputSize ≠ 0 := by omega
  constructor
  · intro hout hout2 hsend hrecv hfit hreq
    have hout0 : outputBufferSize ≠ 0 := by omega
    have e1 : toInt32 (inputSize : Int) = inputSize := by
      apply toInt32_of_range <;> omega
    have e2 : toInt32 (outputBufferSize : Int) = outputBufferSize := by
      apply toInt32_of_range <;> omega
    have e3 : toInt32 (toInt32 (ff.nb_samples * ff.channels) * 2) =
        ff.nb_samples * ff.channels * 2 := by
      generalize ff.nb_samples * ff.channels = P at hfit hreq ⊢
      have : toInt32 P = P := by
        apply toInt32_of_range <;> omega
      rw [this]
      apply toInt32_of_range <;> omega
    have hpos1 : ¬ ((inputSize : Int) ≤ 0) := by omega
    have hpos2 : ¬ ((outputBufferSize : Int) ≤ 0) := by omega
    have hs : ¬ (ff.avcodec_send_packet < 0) := by omega
    have hr : ¬ (ff.avcodec_receive_frame < 0) := by omega
    have hpk : OrbisAudioDecoder.decodePacket ff d true (toInt32 inputSize) true
        (toInt32 outputBufferSize) true =
        ⟨-2, some 0, [.av_packet_unref, .avcodec_send_packet, .avcodec_receive_frame]⟩ := by
      unfold OrbisAudioDecoder.decodePacket
      simp only [hd, e1, e2, e3, hpos1, hpos2, hs, hr, hreq, gt_iff_lt, Bool.not_true,
        Bool.false_eq_true, if_false, if_true, decide_False, Bool.or_self, Bool.or_false]
    have hres : M4aacAudioPlugin.decode ff p true inputSize true outputBufferSize true =
        ⟨.ErrorInsufficientBuffer, none,
          [.av_packet_unref, .avcodec_send_packet, .avcodec_receive_frame]⟩ := by
      unfold M4aacAudioPlugin.decode
      simp [hinit, hdec, hin0, hout0, hpk]
    rw [hres]
    exact ⟨rfl, by decide⟩
  · unfold M4aacAudioPlugin.decode
    simp [hinit, hdec, hin0]

/-- C17, amended, at concrete inputs: on `pluginReady`, a 16-byte packet whose frame needs
4096 bytes and an output capacity of 4095 bytes give `ErrorInsufficientBuffer` with no
output size and no `swr_convert`. -/
theorem decode_insufficient_buffer_witness :
    M4aacAudioPlugin.decode answersFrame1024 pluginReady true 16 true 4095 true =
      ⟨.ErrorInsufficientBuffer, none,
        [.av_packet_unref, .avcodec_send_packet, .avcodec_receive_frame]⟩ :=
  ((decode_insufficient_buffer answersFrame1024 pluginReady 16 4095 reachable_pluginReady
    (by decide) (by decide) (by decide)).1 (by decide) (by decide) (by decide) (by decide)
    (by decide) (by decide)).1

/-! ## C18: a failed `initialize` -/

/-- C18: for a plugin in any reachable state (never initialized or already initialized) and every
format, if `format.sampleRate = 0` or `format.channels = 0`, or
`OrbisAudioDecoder::initialize` returns false, then `initialize(format)` returns false and
leaves the plugin uninitialized: `isInitialized = false`, no decoder is held, a following
`decode` returns `ErrorNotInitialized` for all arguments and a following `reset` returns
false. -/
theorem initialize_failure (ffi : InitAnswers) (format : AudioFormat) (p : M4aacAudioPlugin)
    (hreach : M4aacAudioPlugin.Reachable p)
    (hfail : format.sampleRate = 0 ∨ format.channels = 0 ∨
      ( OrbisAudioDecoder.initialize ffi AV_CODEC_ID_AAC (toInt32 format.sampleRate)
        (format.channels : Int) OrbisAudioDecoder.fresh).1 = false) :
    ( M4aacAudioPlugin.initialize ffi format p).1 = false ∧
    ( M4aacAudioPlugin.initialize ffi format p).2.isInitialized = false ∧
    ( M4aacAudioPlugin.initialize ffi format p).2.decoder = none ∧
    (∀ (ff : DecodeAnswers) (inputData : Bool) (inputSize : Nat) (outputBuffer : Bool)
        (outputBufferSize : Nat) (outputSize : Bool),
      M4aacAudioPlugin.decode ff ( M4aacAudioPlugin.initialize ffi format p).2 inputData inputSize
        outputBuffer outputBufferSize outputSize = ⟨.ErrorNotInitialized, none, []⟩) ∧
    M4aacAudioPlugin.reset ( M4aacAudioPlugin.initialize ffi format p).2 = false := by
  have hret : ( M4aacAudioPlugin.initialize ffi format p).1 = false := by
    unfold M4aacAudioPlugin.initialize
    simp only []
    by_cases hfmt : format.sampleRate = 0 ∨ format.channels = 0
    · simp [hfmt]
    · have hm : ( OrbisAudioDecoder.initialize ffi AV_CODEC_ID_AAC (toInt32 format.sampleRate)
          (format.channels : Int) OrbisAudioDecoder.fresh).1 = false := by
        rcases hfail with h | h | h
        · exact absurd (Or.inl h) hfmt
        · exact absurd (Or.inr h) hfmt
        · exact h
      simp [hfmt, hm]
  have hflag : ( M4aacAudioPlugin.initialize ffi format p).2.isInitialized = false := by
    rw [M4aacAudioPlugin.initialize_flag, hret]
  have hcons := M4aacAudioPlugin.initialize_consistent ffi format p
    (M4aacAudioPlugin.consistent_of_reachable p hreach)
  refine ⟨hret, hflag, hcons.2 hflag, ?_, ?_⟩
  · intro ff inputData inputSize outputBuffer outputBufferSize outputSize
    exact M4aacAudioPlugin.decode_of_flag_false ff _ _ _ _ _ _ hflag
  · unfold M4aacAudioPlugin.reset
    simp [hflag]

/-- C18 at concrete inputs: on the initialized `pluginReady`, `initialize` with a zero sample rate
and `initialize` with a failing `avcodec_open2` both return false and leave the plugin
without a decoder and with `isInitialized = false`. -/
theorem initialize_failure_witness :
    (( M4aacAudioPlugin.initialize answersGood formatNoRate pluginReady).1 = false ∧
      ( M4aacAudioPlugin.initialize answersGood formatNoRate pluginReady).2.isInitialized = false ∧
      ( M4aacAudioPlugin.initialize answersGood formatNoRate pluginReady).2.decoder = none) ∧
    (( M4aacAudioPlugin.initialize answersOpenFails format48k pluginReady).1 = false ∧
      ( M4aacAudioPlugin.initialize answersOpenFails format48k pluginReady).2.isInitialized = false ∧
      ( M4aacAudioPlugin.initialize answersOpenFails format48k pluginReady).2.decoder = none) := by
  have h1 := initialize_failure answersGood formatNoRate pluginReady reachable_pluginReady
    (Or.inl rfl)
  have h2 := initialize_failure answersOpenFails format48k pluginReady reachable_pluginReady
    (Or.inr (Or.inr (by decide)))
  exact ⟨⟨h1.1, h1.2.1, h1.2.2.1⟩, ⟨h2.1, h2.2.1, h2.2.2.1⟩⟩

/-! ## C19: `decode` with empty input -/

/-- C19: for an initialized plugin (in a reachable state), `decode` with a null input pointer or
with `inputSize = 0` returns `ErrorInvalidInput`, makes no FFmpeg call and stores no output
size, whatever the other arguments are. -/
theorem decode_empty_input (ff : DecodeAnswers) (p : M4aacAudioPlugin) (inputData : Bool)
    (inputSize : Nat) (outputBuffer : Bool) (outputBufferSize : Nat) (outputSize : Bool)
    (hreach : M4aacAudioPlugin.Reachable p) (hinit : p.isInitialized = true)
    (hempty : inputData = false ∨ inputSize = 0) :
    M4aacAudioPlugin.decode ff p inputData inputSize outputBuffer outputBufferSize outputSize =
      ⟨.ErrorInvalidInput, none, []⟩ := by
  obtain ⟨d, hdec, _⟩ := (M4aacAudioPlugin.consistent_of_reachable p hreach).1 hinit
  unfold M4aacAudioPlugin.decode
  rcases hempty with h | h
  · simp [hinit, hdec, h]
  · simp [hinit, hdec, h]

/-- C19 at concrete inputs: on `pluginReady`, a null input pointer with size 16 and a non-null
input pointer with size 0 both give `ErrorInvalidInput`. -/
theorem decode_empty_input_witness :
    M4aacAudioPlugin.decode answersFrame1024 pluginReady false 16 true 8192 true =
      ⟨.ErrorInvalidInput, none, []⟩ ∧
    M4aacAudioPlugin.decode answersFrame1024 pluginReady true 0 true 8192 true =
      ⟨.ErrorInvalidInput, none, []⟩ :=
  ⟨decode_empty_input answersFrame1024 pluginReady false 16 true 8192 true
      reachable_pluginReady (by decide) (Or.inl rfl),
   decode_empty_input answersFrame1024 pluginReady true 0 true 8192 true
      reachable_pluginReady (by decide) (Or.inr rfl)⟩

/-! ## C20: the output format after a successful `initialize` -/

/-- C20: whenever `initialize(f)` returns true for a format `f` whose `channels` is a `uint16_t`
value, `getOutputFormat()` afterwards returns `sampleRate = f.sampleRate`,
`channels = f.channels`, `bitsPerSample = 16` whatever `f.bitsPerSample` is, and
`frameSize = 2 × f.channels`; the product, formed in `int`, is below `2^31`, so nothing
wraps. -/
theorem getOutputFormat_after_success (ffi : InitAnswers) (f : AudioFormat)
    (p : M4aacAudioPlugin) (hch : f.channels < 2 ^ 16)
    (hok : ( M4aacAudioPlugin.initialize ffi f p).1 = true) :
    M4aacAudioPlugin.getOutputFormat ( M4aacAudioPlugin.initialize ffi f p).2 =
      { sampleRate := f.sampleRate, channels := f.channels, bitsPerSample := 16,
        frameSize := 2 * f.channels } ∧
    ((16 / 8 : Nat) : Int) * (f.channels : Int) < 2 ^ 31 := by
  have hfs : toUInt32 (toInt32 (((16 / 8 : Nat) : Int) * (f.channels : Int))) =
      2 * f.channels := by
    have h1 : ((16 / 8 : Nat) : Int) * (f.channels : Int) = 2 * (f.channels : Int) := by
      norm_num
    rw [h1, toInt32_of_range _ (by omega) (by omega), toUInt32_of_range _ (by omega) (by omega)]
    omega
  refine ⟨?_, by norm_num; omega⟩
  unfold M4aacAudioPlugin.initialize at hok ⊢
  simp only [] at hok ⊢
  by_cases hfmt : f.sampleRate = 0 ∨ f.channels = 0
  · simp [hfmt] at hok
  · cases hm : ( OrbisAudioDecoder.initialize ffi AV_CODEC_ID_AAC (toInt32 f.sampleRate)
        (f.channels : Int) OrbisAudioDecoder.fresh).1 with
    | false => simp [hfmt, hm] at hok
    | true =>
      simp only [hfmt, hm, if_false, Bool.not_true, Bool.false_eq_true,
        M4aacAudioPlugin.getOutputFormat, M4aacAudioPlugin.updateOutputFormat]
      rw [hfs]

/-- C20 at a concrete input: after `initialize(format48k)`, whose `bitsPerSample` is 24, the
output format is 48000 Hz, 2 channels, 16 bits, frame size 4. -/
theorem getOutputFormat_after_success_witness :
    M4aacAudioPlugin.getOutputFormat pluginReady =
      { sampleRate := 48000, channels := 2, bitsPerSample := 16, frameSize := 4 } :=
  (getOutputFormat_after_success answersGood format48k M4aacAudioPlugin.fresh (by decide)
    (by decide)).1

/-! ## C21: what a failed dynamic load releases -/

/-- C21: when the module's instance reports a codec type that is already registered,
`loadDynamicPlugin` destroys the instance twice: it calls the module's
`destroyPluginInstance` on it, closes the module, and at `return false` the local
`unique_ptr`, which still owns the pointer, deletes it again, after the module is closed;
the call ends in that second deletion (`Outcome.doubleDelete`) and returns nothing.  The
module itself is closed once in this and in the two other failure modes that opened it,
and nothing is closed when the module does not open. -/
theorem loadDynamicPlugin_duplicate_destroys_twice :
    loadDynamicPlugin linkerDemo loaderAOpus "opus.so" =
      .doubleDelete [Event.createFunc 9, Event.destroyFunc 3,
        Event.closeLibrary 9, Event.deleteInstance 3] ∧
    (loadDynamicPlugin linkerDemo loaderAOpus "opus.so").value? = none ∧
    List.countP (Event.destroys 3) [Event.createFunc 9, Event.destroyFunc 3,
        Event.closeLibrary 9, Event.deleteInstance 3] = 2 ∧
    List.indexOf (Event.closeLibrary 9) [Event.createFunc 9, Event.destroyFunc 3,
        Event.closeLibrary 9, Event.deleteInstance 3] <
      List.indexOf (Event.deleteInstance 3) [Event.createFunc 9, Event.destroyFunc 3,
        Event.closeLibrary 9, Event.deleteInstance 3] ∧
    List.countP Event.isCloseLibrary [Event.createFunc 9, Event.destroyFunc 3,
        Event.closeLibrary 9, Event.deleteInstance 3] = 1 ∧
    (loadDynamicPlugin linkerDemo loaderAOpus "missing.module").events? = some [] ∧
    (loadDynamicPlugin linkerDemo loaderAOpus "nosym.so").events? =
      some [Event.closeLibrary 10] ∧
    (loadDynamicPlugin linkerDemo loaderAOpus "null.so").events? =
      some [Event.createFunc 11, Event.closeLibrary 11] := by
  decide

/-! ## C22: lock acquisitions -/

theorem registerBuiltInPlugin_returns (s : AjmPluginLoader) (plugin : Option IAudioPlugin)
    (hfree : s.pluginMutex = false) :
    ∃ r : Ret Bool, registerBuiltInPlugin s plugin = .returns r ∧
      r.loader.pluginMutex = false := by
  cases plugin with
  | none => exact ⟨⟨false, s, []⟩, rfl, hfree⟩
  | some p =>
    rw [registerBuiltInPlugin_free s p hfree]
    by_cases hdup : (PluginMap.find s.plugins p.getPluginInfo.codecType).isSome
    · simp only [hdup, if_true]
      exact ⟨_, rfl, hfree⟩
    · simp only [hdup, Bool.false_eq_true, if_false]
      exact ⟨_, rfl, hfree⟩

theorem loadDynamicPlugin_lock_free (os : DynamicLinker) (s : AjmPluginLoader)
    (pluginPath : String) (hfree : s.pluginMutex = false) :
    loadDynamicPlugin os s pluginPath ≠ Outcome.relock ∧
      ∀ r : Ret Bool, loadDynamicPlugin os s pluginPath = .returns r →
        r.loader.pluginMutex = false := by
  rw [loadDynamicPlugin_free os s pluginPath hfree]
  by_cases h0 : os.dlopen pluginPath = 0
  · simp only [h0, if_true]
    exact ⟨by simp, fun r hr => by cases hr; exact hfree⟩
  · simp only [h0, if_false]
    cases hc : os.createPluginInstance (os.dlopen pluginPath) with
    | none => exact ⟨by simp, fun r hr => by cases hr; exact hfree⟩
    | some createFunc =>
      cases hd : os.destroyPluginInstance (os.dlopen pluginPath) with
      | false => exact ⟨by simp, fun r hr => by cases hr; exact hfree⟩
      | true =>
        cases hp : createFunc () with
        | none =>
          simp only [hp]
          exact ⟨by simp, fun r hr => by cases hr; exact hfree⟩
        | some p =>
          simp only [hp]
          by_cases hdup : (PluginMap.find s.plugins p.getPluginInfo.codecType).isSome
          · simp only [hdup, if_true]
            exact ⟨by simp, fun r hr => by cases hr⟩
          · simp only [hdup, Bool.false_eq_true, if_false]
            exact ⟨by simp, fun r hr => by cases hr; exact hfree⟩

theorem unloadDynamicPlugin_returns (s : AjmPluginLoader) (codecType : String)
    (hfree : s.pluginMutex = false) :
    ∃ r : Ret Unit, unloadDynamicPlugin s codecType = .returns r ∧
      r.loader.pluginMutex = false := by
  rw [unloadDynamicPlugin_free s codecType hfree]
  cases hf : PluginMap.find s.plugins codecType with
  | none => exact ⟨_, rfl, hfree⟩
  | some entry =>
    cases hb : entry.isBuiltIn with
    | true =>
      simp only [hb, if_true]
      exact ⟨_, rfl, hfree⟩
    | false =>
      simp only [hb, Bool.false_eq_true, if_false]
      exact ⟨_, rfl, hfree⟩

theorem shutdownPlugins_returns (s : AjmPluginLoader) (hfree : s.pluginMutex = false) :
    ∃ r : Ret Unit, shutdownPlugins s = .returns r ∧ r.loader.pluginMutex = false := by
  rw [shutdownPlugins_free s hfree]
  cases hi : s.initialized with
  | true =>
    simp only [if_true]
    exact ⟨_, rfl, hfree⟩
  | false =>
    simp only [Bool.false_eq_true, if_false]
    exact ⟨_, rfl, hfree⟩

/-- C22: with the lock as a held/free flag, `initializePlugins` on a loader that is not
initialized takes the mutex and, holding it, reaches `registerBuiltInPlugin` through
`registerBuiltInPlugins`, which tries to take it again: the call does not return.  This
holds whatever the entries are and whatever address `new` hands out.  Every other operation
called with the flag free, and `initializePlugins` on an initialized loader, acquires the
mutex once, with the flag free, and leaves the flag free when it returns; all of them
return, except that `loadDynamicPlugin` may end in the second deletion of its
duplicate-codec-type path, which is not a lock acquisition. -/
theorem initializePlugins_nested_lock (a : Nat) (m : PluginMap) (b : Bool)
    (plugin : Option IAudioPlugin) (os : DynamicLinker) (pluginPath codecType : String) :
    (∃ s1 : AjmPluginLoader,
      AjmPluginLoader.lock ⟨m, false, false⟩ = some s1 ∧ s1.pluginMutex = true ∧
      s1.lock = none ∧ registerBuiltInPlugins a s1 = Outcome.relock) ∧
    initializePlugins a ⟨m, false, false⟩ = Outcome.relock ∧
    initializePlugins a ⟨m, false, true⟩ = .returns ⟨true, ⟨m, false, true⟩, []⟩ ∧
    (∃ r : Ret Unit, shutdownPlugins ⟨m, false, b⟩ = .returns r ∧
      r.loader.pluginMutex = false) ∧
    (∃ r : Ret Bool, registerBuiltInPlugin ⟨m, false, b⟩ plugin = .returns r ∧
      r.loader.pluginMutex = false) ∧
    (loadDynamicPlugin os ⟨m, false, b⟩ pluginPath ≠ Outcome.relock ∧
      ∀ r : Ret Bool, loadDynamicPlugin os ⟨m, false, b⟩ pluginPath = .returns r →
        r.loader.pluginMutex = false) ∧
    (∃ r : Ret Unit, unloadDynamicPlugin ⟨m, false, b⟩ codecType = .returns r ∧
      r.loader.pluginMutex = false) ∧
    (∃ r : Ret (Option IAudioPlugin), getPlugin ⟨m, false, b⟩ codecType = .returns r ∧
      r.loader.pluginMutex = false) ∧
    (∃ r : Ret (List PluginInfo), getAvailablePlugins ⟨m, false, b⟩ = .returns r ∧
      r.loader.pluginMutex = false) := by
  refine ⟨⟨⟨m, true, false⟩, rfl, rfl, rfl, rfl⟩, ?_, ?_, shutdownPlugins_returns _ rfl,
    registerBuiltInPlugin_returns _ plugin rfl, loadDynamicPlugin_lock_free os _ pluginPath rfl,
    unloadDynamicPlugin_returns _ codecType rfl, ⟨_, getPlugin_free _ codecType rfl, rfl⟩,
    ⟨_, getAvailablePlugins_free _ rfl, rfl⟩⟩
  · rw [initializePlugins_free a _ rfl]
    rfl
  · rw [initializePlugins_free a _ rfl]
    rfl

/-! ## C23: the order of teardown -/

theorem shutdownEntry_of_entryOk (pair : String × PluginEntry) (h : EntryOk pair) :
    ∃ p : IAudioPlugin, pair.2.plugin = some p ∧
      shutdownEntry pair.2 =
        [Event.pluginShutdown p.addr, Event.deleteInstance p.addr] ++
          (if pair.2.isBuiltIn then [] else [Event.closeLibrary pair.2.libraryHandle]) := by
  obtain ⟨_, hhandle, p, hp, _⟩ := h
  refine ⟨p, hp, ?_⟩
  unfold shutdownEntry
  cases hb : pair.2.isBuiltIn with
  | true => simp [hp]
  | false =>
    have hh : pair.2.libraryHandle ≠ 0 := hhandle.2 hb
    simp [hp, hh, unloadLibrary]

theorem teardown_counts (l : PluginMap) (h : ∀ pair ∈ l, EntryOk pair) :
    (l.flatMap (fun pair => shutdownEntry pair.2)).countP Event.isPluginShutdown = l.length ∧
    (l.flatMap (fun pair => shutdownEntry pair.2)).countP Event.isDeleteInstance = l.length ∧
    (l.flatMap (fun pair => shutdownEntry pair.2)).countP Event.isCloseLibrary =
      (l.filter (fun pair => !pair.2.isBuiltIn)).length := by
  induction l with
  | nil => simp
  | cons hd tl ih =>
    obtain ⟨ih1, ih2, ih3⟩ := ih (fun pair hm => h pair (List.mem_cons_of_mem _ hm))
    obtain ⟨p, _, hblock⟩ := shutdownEntry_of_entryOk hd (h hd (List.mem_cons_self _ _))
    simp only [List.flatMap_cons, List.countP_append, ih1, ih2, ih3, hblock, List.length_cons]
    cases hb : hd.2.isBuiltIn <;>
      simp [List.countP_cons, Event.isPluginShutdown, Event.isDeleteInstance,
        Event.isCloseLibrary, hb] <;> omega

/-- C23: in a loader that satisfies the invariant of the registry, an entry is torn down in the
order instance shutdown, release of the instance, close of the module handle, the last
for dynamic entries only.  `unloadDynamicPlugin` of a dynamic entry issues exactly these
three events.  `shutdownPlugins` on an initialized loader issues, entry after entry, the
block of that entry: one shutdown and one release of its instance, followed by one close of
its handle when the entry is dynamic and by nothing when it is built-in; so over the whole
call there are as many shutdowns and releases as entries and as many module closes as
dynamic entries. -/
theorem teardown_order (s : AjmPluginLoader) (hs : WellFormed s) :
    (∀ (f : String) (entry : PluginEntry), PluginMap.find s.plugins f = some entry →
      entry.isBuiltIn = false →
      ∃ (p : IAudioPlugin) (r : Ret Unit), entry.plugin = some p ∧
        unloadDynamicPlugin s f = .returns r ∧
        r.events = [Event.pluginShutdown p.addr, Event.deleteInstance p.addr,
          Event.closeLibrary entry.libraryHandle]) ∧
    (s.initialized = true →
      ∃ r : Ret Unit, shutdownPlugins s = .returns r ∧
        r.events = s.plugins.flatMap (fun pair => shutdownEntry pair.2) ∧
        (∀ pair ∈ s.plugins, ∃ p : IAudioPlugin, pair.2.plugin = some p ∧
          shutdownEntry pair.2 =
            [Event.pluginShutdown p.addr, Event.deleteInstance p.addr] ++
              (if pair.2.isBuiltIn then []
               else [Event.closeLibrary pair.2.libraryHandle])) ∧
        r.events.countP Event.isPluginShutdown = s.plugins.length ∧
        r.events.countP Event.isDeleteInstance = s.plugins.length ∧
        r.events.countP Event.isCloseLibrary =
          (s.plugins.filter (fun pair => !pair.2.isBuiltIn)).length) := by
  obtain ⟨hfree, _, hall⟩ := hs
  constructor
  · intro f entry hf hdyn
    obtain ⟨_, hhandle, p, hp, _⟩ := hall (f, entry) (PluginMap.mem_of_find _ _ _ hf)
    simp only at hhandle hp
    have hh : entry.libraryHandle ≠ 0 := hhandle.2 hdyn
    refine ⟨p, ⟨(), { s with plugins := PluginMap.erase s.plugins f }, _⟩, hp, ?_, rfl⟩
    rw [unloadDynamicPlugin_free s f hfree]
    simp [hf, hdyn, hp, hh, unloadLibrary]
  · intro hinit
    obtain ⟨c1, c2, c3⟩ := teardown_counts s.plugins hall
    refine ⟨⟨(), { s with plugins := [], initialized := false },
      s.plugins.flatMap (fun pair => shutdownEntry pair.2)⟩, ?_, rfl,
      fun pair hm => shutdownEntry_of_entryOk pair (hall pair hm), c1, c2, c3⟩
    rw [shutdownPlugins_free s hfree]
    simp [hinit]

theorem wellFormed_loaderAOpus : WellFormed loaderAOpus := by
  refine ⟨rfl, by decide, ?_⟩
  intro pair hmem
  simp only [loaderAOpus, List.mem_cons, List.mem_singleton, List.not_mem_nil, or_false]
    at hmem
  rcases hmem with h | h
  · subst h
    exact ⟨rfl, by decide, decoderA, rfl, rfl⟩
  · subst h
    exact ⟨rfl, by decide, decoderOpus, rfl, rfl⟩

/-- C23 at a concrete input: shutting down `loaderAOpus` tears down the built-in "M4AAC" entry
(shutdown and release of the instance at address 1, no module close) and then the dynamic
"OPUS" entry (shutdown and release of the instance at address 3, then close of module 9);
unloading "OPUS" issues that entry's three events. -/
theorem teardown_order_witness :
    (∃ r : Ret Unit, shutdownPlugins loaderAOpus = .returns r ∧
      r.events = [Event.pluginShutdown 1, Event.deleteInstance 1, Event.pluginShutdown 3,
        Event.deleteInstance 3, Event.closeLibrary 9]) ∧
    (∃ r : Ret Unit, unloadDynamicPlugin loaderAOpus "OPUS" = .returns r ∧
      r.events = [Event.pluginShutdown 3, Event.deleteInstance 3, Event.closeLibrary 9]) := by
  have h := teardown_order loaderAOpus wellFormed_loaderAOpus
  constructor
  · obtain ⟨r, h1, h2, _⟩ := h.2 rfl
    refine ⟨r, h1, ?_⟩
    rw [h2]
    decide
  · obtain ⟨p, r, hp, h1, h2⟩ := h.1 "OPUS" ⟨some decoderOpus, decoderOpus.pluginInfo, false, 9⟩
      (by decide) rfl
    simp only [Option.some.injEq] at hp
    subst hp
    exact ⟨r, h1, h2⟩

/-! ## C24: how `decode` maps the decoder's result -/

/-- C24: for an initialized plugin holding the decoder `d`, called with non-null pointers and
non-zero sizes, `decode` is determined by the value `decodePacket` returns: it returns
`Success` exactly when that value is 0, `ErrorInsufficientBuffer` exactly when it is -2,
`ErrorEndOfStream` exactly when it is `AVERROR_EOF`, and `ErrorCodecFailure` exactly when it
is none of the three, so the end of the stream is told apart from a codec failure.  An
output size is stored exactly in the `Success` case, and it is the byte count `decodePacket`
stored, converted to `uint32_t` (the same number whenever that count is not negative). -/
theorem decode_result_mapping (ff : DecodeAnswers) (p : M4aacAudioPlugin)
    (d : OrbisAudioDecoder) (inputSize outputBufferSize : Nat)
    (hinit : p.isInitialized = true) (hdec : p.decoder = some d)
    (hin : inputSize ≠ 0) (hout : outputBufferSize ≠ 0) :
    ((M4aacAudioPlugin.decode ff p true inputSize true outputBufferSize true).result =
        .Success ↔
      (OrbisAudioDecoder.decodePacket ff d true (toInt32 inputSize) true
        (toInt32 outputBufferSize) true).ret = 0) ∧
    ((M4aacAudioPlugin.decode ff p true inputSize true outputBufferSize true).result =
        .ErrorInsufficientBuffer ↔
      (OrbisAudioDecoder.decodePacket ff d true (toInt32 inputSize) true
        (toInt32 outputBufferSize) true).ret = -2) ∧
    ((M4aacAudioPlugin.decode ff p true inputSize true outputBufferSize true).result =
        .ErrorEndOfStream ↔
      (OrbisAudioDecoder.decodePacket ff d true (toInt32 inputSize) true
        (toInt32 outputBufferSize) true).ret = AVERROR_EOF) ∧
    ((M4aacAudioPlugin.decode ff p true inputSize true outputBufferSize true).result =
        .ErrorCodecFailure ↔
      ((OrbisAudioDecoder.decodePacket ff d true (toInt32 inputSize) true
          (toInt32 outputBufferSize) true).ret ≠ 0 ∧
        (OrbisAudioDecoder.decodePacket ff d true (toInt32 inputSize) true
          (toInt32 outputBufferSize) true).ret ≠ -2 ∧
        (OrbisAudioDecoder.decodePacket ff d true (toInt32 inputSize) true
          (toInt32 outputBufferSize) true).ret ≠ AVERROR_EOF)) ∧
    (((M4aacAudioPlugin.decode ff p true inputSize true outputBufferSize true).outputSize).isSome
        = true ↔
      (M4aacAudioPlugin.decode ff p true inputSize true outputBufferSize true).result =
        .Success) ∧
    ((OrbisAudioDecoder.decodePacket ff d true (toInt32 inputSize) true
        (toInt32 outputBufferSize) true).ret = 0 →
      (M4aacAudioPlugin.decode ff p true inputSize true outputBufferSize true).outputSize =
        some (toUInt32 ((OrbisAudioDecoder.decodePacket ff d true (toInt32 inputSize) true
          (toInt32 outputBufferSize) true).outputSize.getD 0)) ∧
      ∀ n : Int, (OrbisAudioDecoder.decodePacket ff d true (toInt32 inputSize) true
          (toInt32 outputBufferSize) true).outputSize = some n → 0 ≤ n → n < 2 ^ 31 →
        (M4aacAudioPlugin.decode ff p true inputSize true outputBufferSize true).outputSize =
          some n.toNat) := by
  have hEOF0 : AVERROR_EOF ≠ 0 := by decide
  have hEOF2 : AVERROR_EOF ≠ -2 := by decide
  generalize hr : OrbisAudioDecoder.decodePacket ff d true (toInt32 inputSize) true
    (toInt32 outputBufferSize) true = r
  have hdecode : M4aacAudioPlugin.decode ff p true inputSize true outputBufferSize true =
      if r.ret = 0 then ⟨.Success, some (toUInt32 (r.outputSize.getD 0)), r.calls⟩
      else if r.ret = -2 then ⟨.ErrorInsufficientBuffer, none, r.calls⟩
      else if r.ret = AVERROR_EOF then ⟨.ErrorEndOfStream, none, r.calls⟩
      else ⟨.ErrorCodecFailure, none, r.calls⟩ := by
    unfold M4aacAudioPlugin.decode
    simp [hinit, hdec, hin, hout, hr]
  rw [hdecode]
  by_cases h0 : r.ret = 0
  · have h3 : r.ret ≠ AVERROR_EOF := fun h => hEOF0 (h ▸ h0)
    simp only [h0, if_true]
    refine ⟨by simp, by simp, by simp [Ne.symm hEOF0], by simp, by simp, ?_⟩
    intro _
    refine ⟨trivial, ?_⟩
    intro n hn hpos hlt
    rw [hn]
    simp only [Option.getD_some, Option.some.injEq]
    exact toUInt32_of_range n hpos (by omega)
  · simp only [h0, if_false]
    by_cases h2 : r.ret = -2
    · simp only [h2, if_true]
      refine ⟨by simp, by simp, by simp [Ne.symm hEOF2], by simp, by simp, ?_⟩
      intro h
      exact h.elim
    · simp only [h2, if_false]
      by_cases h3 : r.ret = AVERROR_EOF
      · simp only [h3, if_true]
        refine ⟨by simp [hEOF0], by simp [hEOF2], by simp, by simp, by simp, ?_⟩
        intro h
        exact h.elim
      · simp only [h3, if_false]
        refine ⟨by simp [h0], by simp [h2], by simp [h3], by simp [h0, h2, h3], by simp, ?_⟩
        intro h
        exact h.elim

/-- C24 at concrete inputs: on `pluginReady`, with valid arguments, an end of stream reported by
`avcodec_receive_frame` gives `ErrorEndOfStream`, a packet refused with -22 gives
`ErrorCodecFailure`, and a decoded frame of 4096 bytes gives `Success` with output size
4096. -/
theorem decode_result_mapping_witness :
    (M4aacAudioPlugin.decode answersEndOfStream pluginReady true 16 true 8192 true).result =
      .ErrorEndOfStream ∧
    (M4aacAudioPlugin.decode answersSendFails pluginReady true 16 true 8192 true).result =
      .ErrorCodecFailure ∧
    (M4aacAudioPlugin.decode answersFrame1024 pluginReady true 16 true 8192 true).result =
      .Success ∧
    (M4aacAudioPlugin.decode answersFrame1024 pluginReady true 16 true 8192 true).outputSize =
      some 4096 :=
  ⟨(decode_result_mapping answersEndOfStream pluginReady decoderReady 16 8192 (by decide)
      (by decide) (by decide) (by decide)).2.2.1.2 (by decide),
   (decode_result_mapping answersSendFails pluginReady decoderReady 16 8192 (by decide)
      (by decide) (by decide) (by decide)).2.2.2.1.2 (by decide),
   (decode_result_mapping answersFrame1024 pluginReady decoderReady 16 8192 (by decide)
      (by decide) (by decide) (by decide)).1.2 (by decide),
   ((decode_result_mapping answersFrame1024 pluginReady decoderReady 16 8192 (by decide)
      (by decide) (by decide) (by decide)).2.2.2.2.2 (by decide)).2 4096 (by decide)
      (by decide) (by decide)⟩

/-! ## C25: sizes of 2^31 and more -/

/-- C25, as stated, fails when the other size is 0: on the initialized `pluginReady`, with
non-null buffers, `inputSize = 2^31` and `outputBufferSize = 0`, and likewise `inputSize = 0`
and `outputBufferSize = 2^31`, `decode` returns `ErrorInvalidInput` at its own argument
check and `decodePacket` is never called; the result is not `ErrorCodecFailure`. -/
theorem decode_large_size_counterexample :
    pluginReady.isInitialized = true ∧
    M4aacAudioPlugin.decode answersFrame1024 pluginReady true 2147483648 true 0 true =
      ⟨.ErrorInvalidInput, none, []⟩ ∧
    M4aacAudioPlugin.decode answersFrame1024 pluginReady true 0 true 2147483648 true =
      ⟨.ErrorInvalidInput, none, []⟩ ∧
    (M4aacAudioPlugin.decode answersFrame1024 pluginReady true 2147483648 true 0 true).result ≠
      .ErrorCodecFailure := by
  decide

/-- C25, amended: for an initialized plugin (in a reachable state) called with non-null buffers, a
non-null output-size pointer and `uint32_t` sizes that are both different from 0: a size of
at least 2^31 becomes `size − 2^32`, which is negative, as the decoder's `int` parameter;
when either size is at least 2^31, `decodePacket` returns -1 without any FFmpeg call and
`decode` returns `ErrorCodecFailure` without storing an output size; when both sizes are
at most 2^31 − 1 the converted values equal the originals, neither fails the test `<= 0`
of `decodePacket`, and `decodePacket` goes on to call FFmpeg. -/
theorem decode_size_conversion (ff : DecodeAnswers) (p : M4aacAudioPlugin)
    (inputSize outputBufferSize : Nat)
    (hreach : M4aacAudioPlugin.Reachable p) (hinit : p.isInitialized = true)
    (hin32 : inputSize < 2 ^ 32) (hout32 : outputBufferSize < 2 ^ 32)
    (hin : inputSize ≠ 0) (hout : outputBufferSize ≠ 0) :
    (2 ^ 31 ≤ inputSize →
      toInt32 inputSize = (inputSize : Int) - 2 ^ 32 ∧ toInt32 inputSize < 0) ∧
    (2 ^ 31 ≤ outputBufferSize →
      toInt32 outputBufferSize = (outputBufferSize : Int) - 2 ^ 32 ∧
      toInt32 outputBufferSize < 0) ∧
    ((2 ^ 31 ≤ inputSize ∨ 2 ^ 31 ≤ outputBufferSize) →
      ∃ d : OrbisAudioDecoder, p.decoder = some d ∧
        OrbisAudioDecoder.decodePacket ff d true (toInt32 inputSize) true
          (toInt32 outputBufferSize) true = ⟨-1, none, []⟩ ∧
        M4aacAudioPlugin.decode ff p true inputSize true outputBufferSize true =
          ⟨.ErrorCodecFailure, none, []⟩) ∧
    (inputSize < 2 ^ 31 → outputBufferSize < 2 ^ 31 →
      toInt32 inputSize = inputSize ∧ toInt32 outputBufferSize = outputBufferSize ∧
      ¬ (toInt32 inputSize ≤ 0) ∧ ¬ (toInt32 outputBufferSize ≤ 0) ∧
      ∃ d : OrbisAudioDecoder, p.decoder = some d ∧
        EngineCall.av_packet_unref ∈
          (OrbisAudioDecoder.decodePacket ff d true (toInt32 inputSize) true
            (toInt32 outputBufferSize) true).calls) := by
  obtain ⟨d, hdec, hd⟩ := (M4aacAudioPlugin.consistent_of_reachable p hreach).1 hinit
  have hbig : ∀ n : Nat, n < 2 ^ 32 → 2 ^ 31 ≤ n →
      toInt32 n = (n : Int) - 2 ^ 32 ∧ toInt32 n < 0 := by
    intro n h1 h2
    unfold toInt32
    omega
  have hsmall : ∀ n : Nat, n < 2 ^ 31 → toInt32 n = n := by
    intro n h1
    apply toInt32_of_range <;> omega
  refine ⟨hbig inputSize hin32, hbig outputBufferSize hout32, ?_, ?_⟩
  · intro hlarge
    have hcheck : toInt32 inputSize ≤ 0 ∨ toInt32 outputBufferSize ≤ 0 := by
      rcases hlarge with h | h
      · exact Or.inl (le_of_lt (hbig inputSize hin32 h).2)
      · exact Or.inr (le_of_lt (hbig outputBufferSize hout32 h).2)
    have hpk : OrbisAudioDecoder.decodePacket ff d true (toInt32 inputSize) true
        (toInt32 outputBufferSize) true = ⟨-1, none, []⟩ := by
      unfold OrbisAudioDecoder.decodePacket
      rcases hcheck with h | h
      · simp [hd, h]
      · simp [hd, h]
    refine ⟨d, hdec, hpk, ?_⟩
    unfold M4aacAudioPlugin.decode
    simp [hinit, hdec, hin, hout, hpk, AVERROR_EOF]
  · intro h1 h2
    have e1 := hsmall inputSize h1
    have e2 := hsmall outputBufferSize h2
    have hpos1 : ¬ ((inputSize : Int) ≤ 0) := by omega
    have hpos2 : ¬ ((outputBufferSize : Int) ≤ 0) := by omega
    refine ⟨e1, e2, by rw [e1]; exact hpos1, by rw [e2]; exact hpos2, d, hdec, ?_⟩
    unfold OrbisAudioDecoder.decodePacket
    simp only [hd, e1, e2, hpos1, hpos2, Bool.not_true, Bool.false_eq_true, if_false,
      decide_False, Bool.or_self, Bool.or_false]
    split_ifs <;> simp

/-- C25, amended, at concrete inputs: on `pluginReady`, `inputSize = 2^31` with a capacity of 8192
gives `ErrorCodecFailure` with no FFmpeg call, and so does `outputBufferSize = 2^32 − 1`
with a 16-byte input. -/
theorem decode_size_conversion_witness :
    M4aacAudioPlugin.decode answersFrame1024 pluginReady true 2147483648 true 8192 true =
      ⟨.ErrorCodecFailure, none, []⟩ ∧
    M4aacAudioPlugin.decode answersFrame1024 pluginReady true 16 true 4294967295 true =
      ⟨.ErrorCodecFailure, none, []⟩ := by
  obtain ⟨_, _, _, h1⟩ := (decode_size_conversion answersFrame1024 pluginReady 2147483648 8192
    reachable_pluginReady (by decide) (by decide) (by decide) (by decide) (by decide)).2.2.1
    (Or.inl (by decide))
  obtain ⟨_, _, _, h2⟩ := (decode_size_conversion answersFrame1024 pluginReady 16 4294967295
    reachable_pluginReady (by decide) (by decide) (by decide) (by decide) (by decide)).2.2.1
    (Or.inr (by decide))
  exact ⟨h1, h2⟩

end ShadPS4.Audio
